import Mathlib

/-!
Verification of the request-lifecycle controller `goog.net.XhrIo`
(src/closure/goog/net/xhrio.js) of the OrgaChem/closure-library-jp repository.

The controller is a single-threaded, event-emitting wrapper around an opaque
transport handle (`XMLHttpRequest`).  We embed it shallowly: the mutable
object becomes a state record `St`, every method becomes a function
`St → St × List Ev` returning the updated state together with the list of
events dispatched (in order), and the transport handle becomes a record `Xhr`
of its observable fields plus behaviour flags describing the platform quirks
the source defends against (throwing `open`/`send`, synchronous re-entrant
readiness notifications, throwing property reads).

External collaborators that are not part of this repository's sources
(`goog.net.HttpStatus`, `goog.net.ErrorCode`, `goog.net.XmlHttp` ready-state
constants, `goog.uri.utils.getEffectiveScheme`, `goog.userAgent`,
`goog.Timer`, `goog.string`, `goog.structs.Map`) are modelled at their
interface, following the specification's description of them; each such
definition carries a doc comment saying so.
-/

namespace GoogNet

/-- Events dispatched by the controller (`goog.net.EventType` members used by
xhrio.js): READY_STATE_CHANGE, COMPLETE, SUCCESS, ERROR, ABORT, READY,
TIMEOUT. -/
inductive Ev
  | readyStateChange
  | complete
  | success
  | error
  | abort
  | ready
  | timeout
deriving DecidableEq

/-- Modelled from the spec: the error taxonomy of `goog.net.ErrorCode`
(a collaborator not under src/): NO_ERROR, EXCEPTION (thrown by open/send),
TIMEOUT, ABORT, HTTP_ERROR. -/
inductive ErrorCode
  | NO_ERROR
  | EXCEPTION
  | HTTP_ERROR
  | ABORT
  | TIMEOUT
deriving DecidableEq

/-- Modelled from the spec: readiness levels of `goog.net.XmlHttp.ReadyState`
(a collaborator not under src/): uninitialized 0 → opened 1 → sent/loaded 2 →
receiving 3 → complete 4.  xhrio.js uses UNINITIALIZED (0), LOADED (2) and
COMPLETE (4). -/
def ReadyStateUNINITIALIZED : Nat := 0

/-- Modelled from the spec: the LOADED (2) readiness level. -/
def ReadyStateLOADED : Nat := 2

/-- Modelled from the spec: the COMPLETE (4) terminal readiness level. -/
def ReadyStateCOMPLETE : Nat := 4

/-- The transport handle (`this.xhr_`): its observable fields, plus behaviour
flags describing what the platform's handle does when the controller calls
into it.  `throwsOnAccess` models the handle state in which property reads
(status, statusText, responseText, …) raise, as IE/Gears do when queried too
early or after teardown.  `openThrows`/`sendThrows` carry the message of the
exception raised by `open()`/`send()` (`none` = no exception).
`notifyOnOpen` models the standard synchronous OPENED (readyState 1)
notification fired from inside `open()`.  `syncSendNotes` is the list of
readiness notifications (readyState, status) the handle fires synchronously
from inside `send()` (e.g. a cached response in IE).  `notifyOnAbort` is the
optional synchronous notification fired from inside `abort()`.
`timeoutIsNumber`/`ontimeoutDef` describe whether the platform exposes the
XHR2 `timeout`/`ontimeout` properties with the correct types
(`goog.isNumber(xhr['timeout'])`, `goog.isDef(xhr['ontimeout'])`).
`ontimeoutSet`/`timeoutApplied` record the controller's arming of the native
timeout mechanism, `requestHeaders` the headers applied via
`setRequestHeader`, `responseTypeApplied`/`withCredentialsApplied` the other
configuration writes. -/
structure Xhr where
  readyState : Nat
  throwsOnAccess : Bool
  status : Int
  statusText : String
  responseText : String
  responseXML : Option String
  responseSupported : Bool
  response : Option String
  mozArrayBuffer : Option String
  timeoutIsNumber : Bool
  ontimeoutDef : Bool
  ontimeoutSet : Bool
  timeoutApplied : Option Int
  requestHeaders : List (String × String)
  responseTypeApplied : String
  withCredentialsApplied : Bool
  openThrows : Option String
  sendThrows : Option String
  notifyOnOpen : Bool
  syncSendNotes : List (Nat × Int)
  notifyOnAbort : Option (Nat × Int)
  allResponseHeaders : String := ""
  responseHeaderVals : List (String × String) := []
deriving DecidableEq

/-- Options of the current XMLHttpRequest (`this.xhrOptions_`), as used by
xhrio.js: `goog.net.XmlHttp.OptionType.LOCAL_REQUEST_ERROR` and
`USE_NULL_FUNCTION`. -/
structure XhrOptions where
  localRequestError : Bool
  useNullFunction : Bool
deriving DecidableEq

/-- Platform facts consulted by xhrio.js through collaborators not under
src/: `goog.userAgent.IE`, `goog.userAgent.isVersionOrHigher(9)`, and
`goog.uri.utils.getEffectiveScheme` (modelled from the spec as an abstract
map from the last requested URI to its effective scheme). -/
structure Env where
  isIE : Bool
  ieVersion9 : Bool
  effScheme : String → String

/-- The controller state: one field per private field of `goog.net.XhrIo`
(constructor, lines 68–208), plus `disposed` (from the `goog.Disposable`
base), `pendingRsc` (whether the zero-delay `goog.Timer.callOnce`
rescheduling of a synchronous in-send notification is outstanding) and
`abortCalls` (model bookkeeping: how many times the controller has called
`this.xhr_.abort()`). -/
structure St where
  headers : List (String × String)
  active_ : Bool
  xhr_ : Option Xhr
  xhrOptions_ : Option XhrOptions
  lastUri_ : String
  lastMethod_ : String
  lastErrorCode_ : ErrorCode
  lastError_ : String
  errorDispatched_ : Bool
  inSend_ : Bool
  inOpen_ : Bool
  inAbort_ : Bool
  timeoutInterval_ : Int
  timeoutId_ : Option Nat
  responseType_ : String
  withCredentials_ : Bool
  useXhr2Timeout_ : Bool
  disposed : Bool
  pendingRsc : Bool
  abortCalls : Nat

/-- The freshly constructed controller (constructor, lines 68–208): no
headers, inactive, no handle, empty diagnostics, all guards down, timeout
disabled. -/
def initState : St :=
  { headers := []
    active_ := false
    xhr_ := none
    xhrOptions_ := none
    lastUri_ := ""
    lastMethod_ := ""
    lastErrorCode_ := ErrorCode.NO_ERROR
    lastError_ := ""
    errorDispatched_ := false
    inSend_ := false
    inOpen_ := false
    inAbort_ := false
    timeoutInterval_ := 0
    timeoutId_ := none
    responseType_ := ""
    withCredentials_ := false
    useXhr2Timeout_ := false
    disposed := false
    pendingRsc := false
    abortCalls := 0 }

/-- `goog.net.XhrIo.CONTENT_TYPE_HEADER` (line 241). -/
def CONTENT_TYPE_HEADER : String := "Content-Type"

/-- `goog.net.XhrIo.METHODS_WITH_FORM_DATA` (line 254). -/
def METHODS_WITH_FORM_DATA : List String := ["POST", "PUT"]

/-- `goog.net.XhrIo.FORM_CONTENT_TYPE` (line 261). -/
def FORM_CONTENT_TYPE : String := "application/x-www-form-urlencoded;charset=utf-8"

/-- ASCII case folding for one character, used to model JavaScript's
case-insensitive string comparisons. -/
def asciiLowerChar (c : Char) : Char :=
  if 65 ≤ c.toNat ∧ c.toNat ≤ 90 then Char.ofNat (c.toNat + 32) else c

/-- ASCII lower-casing of a string. -/
def asciiLower (s : String) : String := String.mk (s.data.map asciiLowerChar)

/-- ASCII upper-casing of one character. -/
def asciiUpperChar (c : Char) : Char :=
  if 97 ≤ c.toNat ∧ c.toNat ≤ 122 then Char.ofNat (c.toNat - 32) else c

/-- ASCII upper-casing of a string, modelling `String.prototype.toUpperCase`. -/
def asciiUpper (s : String) : String := String.mk (s.data.map asciiUpperChar)

/-- `goog.net.XhrIo.HTTP_SCHEME_PATTERN` (line 248), the regular expression
test `/^https?$/i.test(scheme)`: the scheme equals `http` or `https`
case-insensitively. -/
def httpSchemePatternTest (scheme : String) : Bool :=
  asciiLower scheme == "http" || asciiLower scheme == "https"

/-- `goog.net.XhrIo.isContentTypeHeader_` (lines 610–613):
`goog.string.caseInsensitiveEquals(CONTENT_TYPE_HEADER, header)`.
`caseInsensitiveEquals` is modelled from the spec as comparison of the
lower-cased strings. -/
def isContentTypeHeader_ (header : String) : Bool :=
  asciiLower CONTENT_TYPE_HEADER == asciiLower header

/-- Modelled from the spec: `goog.net.HttpStatus.isSuccess` (a collaborator
not under src/); per the spec's status-success classification, status 200 and
304 are the success codes. -/
def httpStatusIsSuccess (status : Int) : Bool :=
  status == 200 || status == 304

/-- One entry of `goog.structs.Map.set` (a collaborator not under src/,
modelled from the spec as a key-ordered header map): setting an existing key
replaces its value in place, otherwise the pair is appended. -/
def mapSet (m : List (String × String)) (k v : String) : List (String × String) :=
  if m.any (fun p => p.1 == k) then
    m.map (fun p => if p.1 == k then (k, v) else p)
  else
    m ++ [(k, v)]

/-- Lookup in the header map (first entry with the exactly matching key). -/
def mapGet (m : List (String × String)) (k : String) : Option String :=
  (m.find? (fun p => p.1 == k)).map (fun p => p.2)

/-- Lines 509–516 of `send`: clone the base headers and apply the per-request
overrides with `headers.set(key, value)` in iteration order. -/
def mergeHeaders (base overrides : List (String × String)) : List (String × String) :=
  overrides.foldl (fun m kv => mapSet m kv.1 kv.2) base

/-- The request body `opt_content` of `send`; `formData` means the body is a
`FormData` instance (which presupposes that `goog.global['FormData']`
exists). -/
inductive Content
  | empty
  | str (s : String)
  | formData
deriving DecidableEq

/-- `content instanceof goog.global['FormData']` (lines 524–525). -/
def isFormData : Content → Bool
  | Content.formData => true
  | _ => false

/-- Lines 518–534 of `send`: find whether a content-type header is set
ignoring case, and default to the url-encoded form content type for
form-bearing methods when the caller set none and the body is not a
`FormData` payload. -/
def buildHeaders (base overrides : List (String × String)) (method : String)
    (contentIsFormData : Bool) : List (String × String) :=
  let headers := mergeHeaders base overrides
  let contentTypeKey := (headers.map (fun p => p.1)).find? isContentTypeHeader_
  if METHODS_WITH_FORM_DATA.contains method && contentTypeKey.isNone &&
      !contentIsFormData then
    mapSet headers CONTENT_TYPE_HEADER FORM_CONTENT_TYPE
  else
    headers

/-- `var method = opt_method ? opt_method.toUpperCase() : 'GET'` (line 470);
the empty string is falsy in JavaScript. -/
def methodName (optMethod : Option String) : String :=
  match optMethod with
  | some m => if m == "" then "GET" else asciiUpper m
  | none => "GET"

/-- `goog.net.XhrIo.shouldUseXhr2Timeout_` (lines 596–601):
`goog.userAgent.IE && goog.userAgent.isVersionOrHigher(9) &&
goog.isNumber(xhr['timeout']) && goog.isDef(xhr['ontimeout'])`. -/
def shouldUseXhr2Timeout_ (env : Env) (xhr : Xhr) : Bool :=
  env.isIE && env.ieVersion9 && xhr.timeoutIsNumber && xhr.ontimeoutDef

/-- Applies a function to the handle when one is present. -/
def withXhr (s : St) (f : Xhr → Xhr) : St :=
  match s.xhr_ with
  | some x => { s with xhr_ := some (f x) }
  | none => s

/-- `getTimeoutInterval` (lines 393–395). -/
def getTimeoutInterval (s : St) : Int :=
  s.timeoutInterval_

/-- `setTimeoutInterval` (lines 404–406): `this.timeoutInterval_ =
Math.max(0, ms)`. -/
def setTimeoutInterval (ms : Int) (s : St) : St :=
  { s with timeoutInterval_ := max 0 ms }

/-- `setResponseType` (lines 417–419). -/
def setResponseType (t : String) (s : St) : St :=
  { s with responseType_ := t }

/-- `setWithCredentials` (lines 440–442). -/
def setWithCredentials (b : Bool) (s : St) : St :=
  { s with withCredentials_ := b }

/-- `getReadyState` (lines 929–933): `this.xhr_ ? this.xhr_.readyState :
UNINITIALIZED`. -/
def getReadyState (s : St) : Nat :=
  match s.xhr_ with
  | some x => x.readyState
  | none => ReadyStateUNINITIALIZED

/-- `isComplete` (lines 897–899). -/
def isComplete (s : St) : Bool :=
  getReadyState s == ReadyStateCOMPLETE

/-- `isActive` (lines 889–891): `!!this.xhr_`. -/
def isActive (s : St) : Bool :=
  s.xhr_.isSome

/-- `getStatus` (lines 941–955): return the handle's status only once the
readiness is past LOADED; a status read that raises is caught and -1 is
returned. -/
def getStatus (s : St) : Int :=
  if getReadyState s > ReadyStateLOADED then
    match s.xhr_ with
    | some x => if x.throwsOnAccess then -1 else x.status
    | none => -1
  else
    -1

/-- `getStatusText` (lines 963–977): like `getStatus` with default `''`. -/
def getStatusText (s : St) : String :=
  if getReadyState s > ReadyStateLOADED then
    match s.xhr_ with
    | some x => if x.throwsOnAccess then "" else x.statusText
    | none => ""
  else
    ""

/-- `isLastUriEffectiveSchemeHttp_` (lines 918–921): extract the effective
scheme of the last URI and test it against `HTTP_SCHEME_PATTERN`. -/
def isLastUriEffectiveSchemeHttp_ (env : Env) (s : St) : Bool :=
  httpSchemePatternTest (env.effScheme s.lastUri_)

/-- `isSuccess` (lines 905–910): the status-success classification, with a
zero status considered successful when the effective scheme of the last URI
is not http/https (local files). -/
def isSuccess (env : Env) (s : St) : Bool :=
  httpStatusIsSuccess (getStatus s) ||
    (getStatus s == 0 && !isLastUriEffectiveSchemeHttp_ env s)

/-- `getLastUri` (lines 984–986). -/
def getLastUri (s : St) : String :=
  s.lastUri_

/-- `getLastErrorCode` (lines 1198–1200). -/
def getLastErrorCode (s : St) : ErrorCode :=
  s.lastErrorCode_

/-- `getLastError` (lines 1207–1210). -/
def getLastError (s : St) : String :=
  s.lastError_

/-- `getResponseText` (lines 994–1007): `this.xhr_ ? this.xhr_.responseText :
''`, any exception caught and `''` returned. -/
def getResponseText (s : St) : String :=
  match s.xhr_ with
  | some x => if x.throwsOnAccess then "" else x.responseText
  | none => ""

/-- `getResponseXml` (lines 1047–1055): `this.xhr_ ? this.xhr_.responseXML :
null`, any exception caught and null returned. -/
def getResponseXml (s : St) : Option String :=
  match s.xhr_ with
  | some x => if x.throwsOnAccess then none else x.responseXML
  | none => none

/-- `getResponse` (lines 1104–1136): whole body wrapped in try/catch
returning null; prefer the native `response` property, fall back to
`responseText` for the default/text hints and to `mozResponseArrayBuffer`
for the array-buffer hint, otherwise null. -/
def getResponse (s : St) : Option String :=
  match s.xhr_ with
  | none => none
  | some x =>
    if x.throwsOnAccess then none
    else if x.responseSupported then x.response
    else if s.responseType_ == "" || s.responseType_ == "text" then
      some x.responseText
    else if s.responseType_ == "arraybuffer" && x.mozArrayBuffer.isSome then
      x.mozArrayBuffer
    else none

/-- `getResponseJson` (lines 1066–1077): returns undefined (here `Except.ok
none`) when no handle is present; otherwise reads `this.xhr_.responseText`
WITHOUT a try/catch — a read that raises propagates to the caller (here
`Except.error`) — strips the optional XSSI prey string when the text starts
with it, and hands the rest to `goog.json.parse` (an external collaborator,
passed in as `parse`; a parse failure also propagates). -/
def getResponseJson (A : Type) (parse : String → Except String A)
    (optXssi : Option String) (s : St) : Except String (Option A) :=
  match s.xhr_ with
  | none => Except.ok none
  | some x =>
    if x.throwsOnAccess then Except.error "responseText access threw"
    else
      let responseText := x.responseText
      let responseText :=
        match optXssi with
        | some p => if p != "" && responseText.startsWith p then
            responseText.drop p.length
          else responseText
        | none => responseText
      (parse responseText).map (fun v => some v)

/-- Modelled from the spec: `goog.string.isEmpty` (a collaborator not under
src/), true of a whitespace-only string. -/
def stringIsEmpty (str : String) : Bool :=
  str.data.all (fun c =>
    c == ' ' || c == '\t' || c == '\n' || c == '\x0d' || c == '\xa0')

/-- Splits a character list at every CR-LF pair, modelling the `split` call
of `getResponseHeaders` (line 1178); the empty string splits to one empty
part, as in JavaScript. -/
def splitCrlf : List Char → List Char → List (List Char)
  | '\x0d' :: '\n' :: rest, acc => acc.reverse :: splitCrlf rest []
  | c :: rest, acc => splitCrlf rest (c :: acc)
  | [], acc => [acc.reverse]

/-- Modelled from the spec: `goog.string.splitLimit` (a collaborator not
under src/) at limit 2 with the colon-space separator, as called on line
1183: the part of the line before the first separator, and the rest of the
line — or undefined when the separator does not occur. -/
def splitColonSpace : List Char → List Char → String × Option String
  | ':' :: ' ' :: rest, acc => (String.mk acc.reverse, some (String.mk rest))
  | c :: rest, acc => splitColonSpace rest (c :: acc)
  | [], acc => (String.mk acc.reverse, none)

/-- JavaScript string coercion of a possibly-undefined value, as performed
by the string concatenation on line 1185. -/
def jsStr : Option String → String
  | none => "undefined"
  | some v => v

/-- JavaScript truthiness of a possibly-undefined string property, the test
on line 1184: undefined and the empty string are falsy. -/
def jsTruthy : Option String → Bool
  | none => false
  | some v => v != ""

/-- Assignment `obj[k] = v` on a JavaScript object modelled as an
insertion-ordered key-value list. -/
def objSet (m : List (String × Option String)) (k : String)
    (v : Option String) : List (String × Option String) :=
  if m.any (fun p => p.1 == k) then
    m.map (fun p => if p.1 == k then (k, v) else p)
  else m ++ [(k, v)]

/-- The native handle's `getResponseHeader(key)` read (line 1148): per the
W3C note cited on lines 1168–1171, the native method matches the header name
case-insensitively. -/
def xhrResponseHeader (x : Xhr) (key : String) : Option String :=
  (x.responseHeaderVals.find? (fun p => asciiLower p.1 == asciiLower key)).map
    (fun p => p.2)

/-- `getResponseHeader` (lines 1146–1149): `this.xhr_ && this.isComplete() ?
this.xhr_.getResponseHeader(key) : undefined` — the handle is never invoked
before the request is complete or after the handle is released. -/
def getResponseHeader (key : String) (s : St) : Option String :=
  match s.xhr_ with
  | some x => if isComplete s then xhrResponseHeader x key else none
  | none => none

/-- `getAllResponseHeaders` (lines 1158–1161): the handle's raw header text
only when a handle is present and the request is complete, the empty string
otherwise. -/
def getAllResponseHeaders (s : St) : String :=
  match s.xhr_ with
  | some x => if isComplete s then x.allResponseHeaders else ""
  | none => ""

/-- `getResponseHeaders` (lines 1176–1191): split the raw header text on
CR-LF, skip whitespace-only lines, split each line at the first colon-space,
and build the key-value object in insertion order, concatenating a repeated
key's values with a comma and a space (with JavaScript's coercion and
truthiness quirks for a line without the separator). -/
def getResponseHeaders (s : St) : List (String × Option String) :=
  ((splitCrlf (getAllResponseHeaders s).data []).map String.mk).foldl
    (fun m line =>
      if stringIsEmpty line then m
      else
        let kv := splitColonSpace line.data []
        match (m.find? (fun p => p.1 == kv.1)).map (fun p => p.2) with
        | some old =>
          if jsTruthy old then
            objSet m kv.1 (some (jsStr old ++ ", " ++ jsStr kv.2))
          else objSet m kv.1 kv.2
        | none => objSet m kv.1 kv.2) []

/-- `dispatchErrors_` (lines 674–680): dispatch COMPLETE then ERROR exactly
once per request cycle, guarded by `errorDispatched_`. -/
def dispatchErrors_ (s : St) : St × List Ev :=
  if !s.errorDispatched_ then
    ({ s with errorDispatched_ := true }, [Ev.complete, Ev.error])
  else
    (s, [])

/-- `cleanUpTimeoutTimer_` (lines 875–883): clear the native ontimeout
callback if that mechanism was chosen, and cancel the `goog.Timer`
registration if one is armed. -/
def cleanUpTimeoutTimer_ (s : St) : St :=
  let s :=
    if s.xhr_.isSome && s.useXhr2Timeout_ then
      withXhr s (fun x => { x with ontimeoutSet := false })
    else s
  if s.timeoutId_.isSome then { s with timeoutId_ := none } else s

/-- `cleanUpXhr_` (lines 836–868): cancel any pending timeout, nil out the
handle and its options, and dispatch READY unless tearing down from
`dispose`.  The best-effort detaching of `onreadystatechange` happens on the
saved local reference after the handle has already left the controller state
(and a failure of it is swallowed), so it has no observable effect here. -/
def cleanUpXhr_ (fromDispose : Bool) (s : St) : St × List Ev :=
  if s.xhr_.isSome then
    let s := cleanUpTimeoutTimer_ s
    let s := { s with xhr_ := none, xhrOptions_ := none }
    if !fromDispose then (s, [Ev.ready]) else (s, [])
  else
    (s, [])

/-- `onReadyStateChangeHelper_` (lines 769–826): ignore when inactive;
ignore the IE local-request pseudo-error (LOCAL_REQUEST_ERROR option,
readiness complete, status 2); defer a synchronous in-send complete
notification through a zero-delay timer; otherwise dispatch
READY_STATE_CHANGE and, at terminal readiness, deactivate, dispatch the
outcome pair (COMPLETE/SUCCESS, or record the HTTP error and route through
`dispatchErrors_`), and release the handle (which dispatches READY).
The `typeof goog == 'undefined'` unload branch is outside the model (the
library is loaded).  `this.xhrOptions_[LOCAL_REQUEST_ERROR]` is only
dereferenced while a request is active, when the options are always present;
a missing record reads as false. -/
def onReadyStateChangeHelper_ (env : Env) (s : St) : St × List Ev :=
  if !s.active_ then
    (s, [])
  else if ((s.xhrOptions_.map (fun o => o.localRequestError)).getD false) &&
      (getReadyState s == ReadyStateCOMPLETE) && (getStatus s == 2) then
    (s, [])
  else if s.inSend_ && (getReadyState s == ReadyStateCOMPLETE) then
    ({ s with pendingRsc := true }, [])
  else
    if isComplete s then
      let s2 := { s with active_ := false }
      if isSuccess env s2 then
        let r := cleanUpXhr_ false s2
        (r.1, [Ev.readyStateChange, Ev.complete, Ev.success] ++ r.2)
      else
        let s3 := { s2 with
          lastErrorCode_ := ErrorCode.HTTP_ERROR
          lastError_ := getStatusText s2 ++ " [" ++ toString (getStatus s2) ++ "]" }
        let r := dispatchErrors_ s3
        let r2 := cleanUpXhr_ false r.1
        (r2.1, [Ev.readyStateChange] ++ r.2 ++ r2.2)
    else
      (s, [Ev.readyStateChange])

/-- `onReadyStateChangeEntryPoint_` (lines 758–760): the replaceable
indirection; by default it forwards to the helper. -/
def onReadyStateChangeEntryPoint_ (env : Env) (s : St) : St × List Ev :=
  onReadyStateChangeHelper_ env s

/-- `onReadyStateChange_` (lines 735–747): ignore when disposed (the method
can be the target of an already-irrelevant stray timer); route a genuine
asynchronous entry through the entry-point indirection, and a re-entrant
notification (any of the inOpen/inSend/inAbort guards up) directly to the
helper. -/
def onReadyStateChange_ (env : Env) (s : St) : St × List Ev :=
  if s.disposed then
    (s, [])
  else if !s.inOpen_ && !s.inSend_ && !s.inAbort_ then
    onReadyStateChangeEntryPoint_ env s
  else
    onReadyStateChangeHelper_ env s

/-- Models a call of `this.xhr_.abort()`: the call is recorded in
`abortCalls`, and the handle may fire its own synchronous readiness
notification (behaviour flag `notifyOnAbort`), which re-enters
`onReadyStateChange_`. -/
def xhrAbortCall (env : Env) (s : St) : St × List Ev :=
  match s.xhr_ with
  | none => (s, [])
  | some x =>
    let s := { s with abortCalls := s.abortCalls + 1 }
    match x.notifyOnAbort with
    | some rsst =>
      let s := withXhr s (fun y => { y with readyState := rsst.1, status := rsst.2 })
      onReadyStateChange_ env s
    | none => (s, [])

/-- `error_` (lines 655–666): deactivate, abort the handle under the
`inAbort_` guard so its own notification is recognised as a re-entry, record
the failure, and route through the unified error dispatch and the handle
release. -/
def error_ (env : Env) (errorCode : ErrorCode) (err : String) (s : St) :
    St × List Ev :=
  let s := { s with active_ := false }
  let r1 :=
    if s.xhr_.isSome then
      let s := { s with inAbort_ := true }
      let r := xhrAbortCall env s
      ({ r.1 with inAbort_ := false }, r.2)
    else (s, [])
  let s := { r1.1 with lastError_ := err, lastErrorCode_ := errorCode }
  let r2 := dispatchErrors_ s
  let r3 := cleanUpXhr_ false r2.1
  (r3.1, r1.2 ++ r2.2 ++ r3.2)

/-- `abort` (lines 688–700): only acts when a handle is present and the
request is active; deactivates, aborts the handle under the `inAbort_`
guard, records the failure code (`opt_failureCode || ABORT`, so a falsy
NO_ERROR also defaults to ABORT), dispatches COMPLETE then ABORT, and
releases the handle. -/
def abort (env : Env) (optFailureCode : Option ErrorCode) (s : St) :
    St × List Ev :=
  if s.xhr_.isSome && s.active_ then
    let s := { s with active_ := false, inAbort_ := true }
    let r1 := xhrAbortCall env s
    let s := { r1.1 with
      inAbort_ := false
      lastErrorCode_ :=
        match optFailureCode with
        | some c => if c = ErrorCode.NO_ERROR then ErrorCode.ABORT else c
        | none => ErrorCode.ABORT }
    let r2 := cleanUpXhr_ false s
    (r2.1, r1.2 ++ [Ev.complete, Ev.abort] ++ r2.2)
  else
    (s, [])

/-- `timeout_` (lines 634–646): when a handle is still present, record the
timeout failure, dispatch the TIMEOUT event, and reuse the abort path for
the actual teardown.  The `typeof goog == 'undefined'` unload branch is
outside the model. -/
def timeout_ (env : Env) (s : St) : St × List Ev :=
  if s.xhr_.isSome then
    let s := { s with
      lastError_ := "Timed out after " ++ toString s.timeoutInterval_ ++ "ms, aborting"
      lastErrorCode_ := ErrorCode.TIMEOUT }
    let r := abort env (some ErrorCode.TIMEOUT) s
    (r.1, Ev.timeout :: r.2)
  else
    (s, [])

/-- `disposeInternal` (lines 708–725): abort the handle only if still
active (under the `inAbort_` guard), then release it with the from-dispose
flag so no events are dispatched; finally the `goog.Disposable` base marks
the object disposed. -/
def disposeInternal (env : Env) (s : St) : St × List Ev :=
  let r :=
    if s.xhr_.isSome then
      let r1 :=
        if s.active_ then
          let s := { s with active_ := false, inAbort_ := true }
          let r := xhrAbortCall env s
          ({ r.1 with inAbort_ := false }, r.2)
        else (s, [])
      let r2 := cleanUpXhr_ true r1.1
      (r2.1, r1.2 ++ r2.2)
    else (s, [])
  ({ r.1 with disposed := true }, r.2)

/-- `goog.Disposable.prototype.dispose`: runs `disposeInternal` once. -/
def dispose (env : Env) (s : St) : St × List Ev :=
  if s.disposed then (s, []) else disposeInternal env s

/-- Models the handle's optional synchronous OPENED notification fired from
inside `this.xhr_.open(...)` (behaviour flag `notifyOnOpen`): the handle
moves to readiness 1 and re-enters `onReadyStateChange_` while the
`inOpen_` guard is up. -/
def xhrOpenNotify (env : Env) (s : St) : St × List Ev :=
  match s.xhr_ with
  | some x =>
    if x.notifyOnOpen then
      let s := withXhr s (fun y => { y with readyState := 1 })
      onReadyStateChange_ env s
    else (s, [])
  | none => (s, [])

/-- Runs the handle's synchronous in-send notifications (behaviour flag
`syncSendNotes`) one after the other: each moves the handle to the reported
readiness/status and re-enters `onReadyStateChange_` while the `inSend_`
guard is up. -/
def runSyncNotes (env : Env) (notes : List (Nat × Int)) (s : St) :
    St × List Ev :=
  match notes with
  | [] => (s, [])
  | rsst :: rest =>
    let s := withXhr s (fun x => { x with readyState := rsst.1, status := rsst.2 })
    let r1 := onReadyStateChange_ env s
    let r2 := runSyncNotes env rest r1.1
    (r2.1, r1.2 ++ r2.2)

/-- Lines 536–568 of `send`: apply the effective headers to the handle via
`setRequestHeader`, apply the response-type hint (when non-default) and the
credentials flag, make sure no timeout timer is running (paranoid), and arm
at most one timeout mechanism when `timeoutInterval_ > 0` — the handle's
native XHR2 timeout/ontimeout pair when `shouldUseXhr2Timeout_`, otherwise a
`goog.Timer.callOnce` registration. -/
def sendApplyConfig (env : Env) (newXhr : Xhr) (hdrs : List (String × String))
    (s : St) : St :=
  let s := withXhr s (fun x => { x with requestHeaders := hdrs })
  let s :=
    if s.responseType_ != "" then
      withXhr s (fun x => { x with responseTypeApplied := s.responseType_ })
    else s
  let s := withXhr s (fun x => { x with withCredentialsApplied := s.withCredentials_ })
  let s := cleanUpTimeoutTimer_ s
  if s.timeoutInterval_ > 0 then
    let u := shouldUseXhr2Timeout_ env newXhr
    let s := { s with useXhr2Timeout_ := u }
    if u then
      withXhr s (fun x => { x with
        timeoutApplied := some s.timeoutInterval_, ontimeoutSet := true })
    else
      { s with timeoutId_ := some 0 }
  else s

/-- `send` (lines 463–578).  The result is the updated state with the events
dispatched during the call, paired with `some message` when the
active-request precondition is violated and the `Error` is thrown to the
caller (in which case the state is returned unchanged — the throw happens
before any mutation).  Mirrors the source order: precondition check; reset of
the per-request fields; creation of the fresh handle (`newXhr`, the value
`createXhr()` returns) and options; `open` under the `inOpen_` guard, whose
exception routes through `error_` with code EXCEPTION and returns (note the
source never clears `inOpen_` on that path); header construction and the
configuration block `sendApplyConfig` (header application, response-type,
credentials, timeout arming); `xhr.send` under the `inSend_` guard, whose
synchronous notifications run first and whose exception routes through
`error_` (the source never clears `inSend_` on that path). -/
def sendM (env : Env) (newXhr : Xhr) (opts : XhrOptions) (url : String)
    (optMethod : Option String) (optContent : Content)
    (optHeaders : List (String × String)) (s : St) :
    (St × List Ev) × Option String :=
  if s.xhr_.isSome then
    ((s, []),
      some ("[goog.net.XhrIo] Object is active with another request=" ++
        s.lastUri_ ++ "; newUri=" ++ url))
  else
    let method := methodName optMethod
    let s := { s with
      lastUri_ := url
      lastError_ := ""
      lastErrorCode_ := ErrorCode.NO_ERROR
      lastMethod_ := method
      errorDispatched_ := false
      active_ := true
      xhr_ := some newXhr
      xhrOptions_ := some opts }
    match newXhr.openThrows with
    | some msg =>
      let s := { s with inOpen_ := true }
      let r := error_ env ErrorCode.EXCEPTION msg s
      ((r.1, r.2), none)
    | none =>
      let s := { s with inOpen_ := true }
      let rOpen := xhrOpenNotify env s
      let s := { rOpen.1 with inOpen_ := false }
      let hdrs := buildHeaders s.headers optHeaders method (isFormData optContent)
      let s := sendApplyConfig env newXhr hdrs s
      let s := { s with inSend_ := true }
      let rNotes := runSyncNotes env newXhr.syncSendNotes s
      match newXhr.sendThrows with
      | some msg =>
        let r := error_ env ErrorCode.EXCEPTION msg rNotes.1
        ((r.1, rOpen.2 ++ rNotes.2 ++ r.2), none)
      | none =>
        (({ rNotes.1 with inSend_ := false }, rOpen.2 ++ rNotes.2), none)

/-- The external stimuli a controller can receive after `send` has returned:
an asynchronous readiness notification from the handle (which moves the
handle to the reported readiness/status and enters `onReadyStateChange_` —
a stray notification after release finds no handle and is ignored), the
firing of the zero-delay rescheduled notification, the firing of the armed
fallback `goog.Timer`, the firing of the armed native XHR2 ontimeout, a
user call of `abort`, and a user call of `dispose`. -/
inductive Stim
  | note (rs : Nat) (status : Int)
  | rescheduled
  | timerFire
  | xhrTimeoutFire
  | userAbort (code : Option ErrorCode)
  | disposeCall

/-- Whether the fallback `goog.Timer` mechanism is armed. -/
def fallbackArmed (s : St) : Bool :=
  s.timeoutId_.isSome

/-- Whether the native XHR2 timeout mechanism is armed on the handle. -/
def nativeArmed (s : St) : Bool :=
  match s.xhr_ with
  | some x => x.ontimeoutSet
  | none => false

/-- One external stimulus applied to the controller. -/
def step (env : Env) (a : Stim) (s : St) : St × List Ev :=
  match a with
  | Stim.note rs status =>
    let s := withXhr s (fun x => { x with readyState := rs, status := status })
    onReadyStateChange_ env s
  | Stim.rescheduled =>
    if s.pendingRsc then
      onReadyStateChange_ env { s with pendingRsc := false }
    else (s, [])
  | Stim.timerFire =>
    if fallbackArmed s then timeout_ env s else (s, [])
  | Stim.xhrTimeoutFire =>
    if nativeArmed s then timeout_ env s else (s, [])
  | Stim.userAbort code => abort env code s
  | Stim.disposeCall => dispose env s

/-- A stimulus that neither aborts, nor disposes, nor fires a timeout. -/
def Stim.benign : Stim → Bool
  | Stim.note _ _ => true
  | Stim.rescheduled => true
  | _ => false

/-- Applies a list of stimuli in order, concatenating the dispatched
events. -/
def run (env : Env) (l : List Stim) (s : St) : St × List Ev :=
  match l with
  | [] => (s, [])
  | a :: rest =>
    let r1 := step env a s
    let r2 := run env rest r1.1
    (r2.1, r1.2 ++ r2.2)

/-- The full event trace of one request cycle: the events dispatched during
`send` followed by the events dispatched while the given stimuli arrive. -/
def cycleEvents (env : Env) (newXhr : Xhr) (opts : XhrOptions) (url : String)
    (optMethod : Option String) (optContent : Content)
    (optHeaders : List (String × String)) (l : List Stim) (s0 : St) :
    List Ev :=
  let r := sendM env newXhr opts url optMethod optContent optHeaders s0
  r.1.2 ++ (run env l r.1.1).2

/-- A fresh, fully well-behaved transport handle: readiness 0, no quirks. -/
def freshXhr : Xhr :=
  { readyState := 0, throwsOnAccess := false, status := 0, statusText := ""
    responseText := "", responseXML := none, responseSupported := false
    response := none, mozArrayBuffer := none, timeoutIsNumber := false
    ontimeoutDef := false, ontimeoutSet := false, timeoutApplied := none
    requestHeaders := [], responseTypeApplied := "", withCredentialsApplied := false
    openThrows := none, sendThrows := none, notifyOnOpen := false
    syncSendNotes := [], notifyOnAbort := none }

/-- A concrete non-IE platform whose URIs all resolve to the http scheme. -/
def env0 : Env :=
  { isIE := false, ieVersion9 := false, effScheme := fun _ => "http" }

/-- Concrete XMLHttpRequest options with no quirk flags. -/
def opts0 : XhrOptions :=
  { localRequestError := false, useNullFunction := false }

/-- A handle that reports a cached response: it fires a synchronous complete
notification (readiness 4, the given status) from inside its `send()`. -/
def cachedXhr (status : Int) : Xhr :=
  { freshXhr with syncSendNotes := [(4, status)] }

/-- A handle reproducing the IE double-failure quirk: it reports a
synchronous complete notification with an HTTP error status from inside
`send()`, and `send()` then throws. -/
def ieDoubleFailXhr : Xhr :=
  { freshXhr with
    syncSendNotes := [(4, 500)]
    sendThrows := some "boom" }

/-- A concrete active controller whose handle fires its own notification
from inside `abort()`. -/
def activeSt : St :=
  { initState with
    active_ := true
    xhr_ := some { freshXhr with notifyOnAbort := some (4, 0) } }

/-- An IE-9-style platform (modelled from the spec's capability probing). -/
def envIE9 : Env :=
  { isIE := true, ieVersion9 := true, effScheme := fun _ => "http" }

/-- A handle exposing the XHR2 timeout and ontimeout properties with the
correct types. -/
def xhr2CapableXhr : Xhr :=
  { freshXhr with timeoutIsNumber := true, ontimeoutDef := true }

/-- A concrete controller holding a well-behaved handle at terminal
readiness with status 200. -/
def okSt200 : St :=
  { initState with
    xhr_ := some { freshXhr with readyState := 4, status := 200 }
    lastUri_ := "http://x/y" }

/-- A handle in the state where property reads raise (queried too early or
after teardown), at terminal readiness. -/
def throwingXhr : Xhr :=
  { freshXhr with readyState := 4, throwsOnAccess := true }

/-- A controller holding the throwing handle. -/
def sThrow : St :=
  { initState with xhr_ := some throwingXhr }

/-- The controller is mid-request, between calls: a handle is owned, the
request is active, the `inSend_` guard is down, the object is not disposed
and no error has been dispatched this cycle. -/
def InFlight (s : St) : Prop :=
  s.active_ = true ∧ s.xhr_.isSome = true ∧ s.inSend_ = false ∧
    s.disposed = false ∧ s.errorDispatched_ = false

/-- The request cycle has ended: inactive, handle released, not disposed. -/
def DoneSt (s : St) : Prop :=
  s.active_ = false ∧ s.xhr_ = none ∧ s.disposed = false

/-- The controller holds no handle and is inactive (disposed or not): every
further stimulus is ignored. -/
def DeadSt (s : St) : Prop :=
  s.active_ = false ∧ s.xhr_ = none

/-- Every event of the list is a READY_STATE_CHANGE. -/
def RscOnly (l : List Ev) : Prop :=
  ∀ e ∈ l, e = Ev.readyStateChange

/-- The trace of a finished cycle: READY_STATE_CHANGE events followed by
COMPLETE, exactly one of SUCCESS/ERROR, then READY. -/
def TermTrace (l : List Ev) : Prop :=
  ∃ a x, RscOnly a ∧ (x = Ev.success ∨ x = Ev.error) ∧
    l = a ++ [Ev.complete, x, Ev.ready]

/-- The trace of a cycle that was not ended by abort, dispose or timeout:
READY_STATE_CHANGE events, optionally followed by the terminal
COMPLETE / (SUCCESS or ERROR) / READY sequence. -/
def CyclePattern (l : List Ev) : Prop :=
  RscOnly l ∨ TermTrace l

/-- How many COMPLETE/ERROR pairs the `errorDispatched_` flag currently
accounts for. -/
def errBound (s : St) : Nat :=
  if s.errorDispatched_ then 1 else 0

/-- The ERROR events emitted by a transition are covered by upward moves of
the `errorDispatched_` flag. -/
def ErrStep (s : St) (evs : List Ev) (s2 : St) : Prop :=
  evs.count Ev.error + errBound s ≤ errBound s2

/-- The fields of the controller state a synchronous in-send notification
can never change (everything except the handle's readiness/status and the
reschedule flag). -/
structure SendQuiet (s s2 : St) : Prop where
  active : s2.active_ = s.active_
  inSend : s2.inSend_ = s.inSend_
  inOpen : s2.inOpen_ = s.inOpen_
  inAbort : s2.inAbort_ = s.inAbort_
  disposed : s2.disposed = s.disposed
  errorDispatched : s2.errorDispatched_ = s.errorDispatched_
  timeoutId : s2.timeoutId_ = s.timeoutId_
  useXhr2 : s2.useXhr2Timeout_ = s.useXhr2Timeout_
  lastUri : s2.lastUri_ = s.lastUri_
  xhrOptions : s2.xhrOptions_ = s.xhrOptions_
  xhrData : (s2.xhr_.map fun x => (x.requestHeaders, x.ontimeoutSet)) =
    (s.xhr_.map fun x => (x.requestHeaders, x.ontimeoutSet))
  xhrSome : s2.xhr_.isSome = s.xhr_.isSome

/-- Projections of `withXhr`: only the handle changes. -/
theorem withXhr_proj (s : St) (f : Xhr → Xhr) :
    (withXhr s f).active_ = s.active_ ∧ (withXhr s f).inSend_ = s.inSend_ ∧
    (withXhr s f).inOpen_ = s.inOpen_ ∧ (withXhr s f).inAbort_ = s.inAbort_ ∧
    (withXhr s f).disposed = s.disposed ∧
    (withXhr s f).errorDispatched_ = s.errorDispatched_ ∧
    (withXhr s f).timeoutId_ = s.timeoutId_ ∧
    (withXhr s f).useXhr2Timeout_ = s.useXhr2Timeout_ ∧
    (withXhr s f).lastUri_ = s.lastUri_ ∧
    (withXhr s f).xhrOptions_ = s.xhrOptions_ ∧
    (withXhr s f).xhr_.isSome = s.xhr_.isSome ∧
    (withXhr s f).pendingRsc = s.pendingRsc := by
  cases h : s.xhr_ <;> simp [withXhr, h]

/-- Projections of `cleanUpTimeoutTimer_`: only the timeout bookkeeping
changes. -/
theorem ctt_proj (s : St) :
    (cleanUpTimeoutTimer_ s).active_ = s.active_ ∧
    (cleanUpTimeoutTimer_ s).disposed = s.disposed ∧
    (cleanUpTimeoutTimer_ s).errorDispatched_ = s.errorDispatched_ ∧
    (cleanUpTimeoutTimer_ s).xhr_.isSome = s.xhr_.isSome ∧
    (cleanUpTimeoutTimer_ s).inSend_ = s.inSend_ ∧
    (cleanUpTimeoutTimer_ s).lastUri_ = s.lastUri_ ∧
    (cleanUpTimeoutTimer_ s).timeoutId_ = none ∧
    (cleanUpTimeoutTimer_ s).abortCalls = s.abortCalls := by
  unfold cleanUpTimeoutTimer_
  cases h : s.xhr_ <;> by_cases hu : s.useXhr2Timeout_ <;>
    simp [withXhr, h, hu] <;> split <;> simp_all

/-- After `cleanUpXhr_` the handle is gone and the lifecycle-relevant fields
are untouched. -/
theorem cleanUpXhr_proj (b : Bool) (s : St) :
    (cleanUpXhr_ b s).1.xhr_ = none ∧
    (cleanUpXhr_ b s).1.active_ = s.active_ ∧
    (cleanUpXhr_ b s).1.disposed = s.disposed ∧
    (cleanUpXhr_ b s).1.errorDispatched_ = s.errorDispatched_ ∧
    (cleanUpXhr_ b s).1.abortCalls = s.abortCalls := by
  unfold cleanUpXhr_
  by_cases h : s.xhr_.isSome
  · have := ctt_proj s
    rcases h2 : s.xhr_ with _ | x
    · simp [h2] at h
    · simp [h, this.1, this.2.1, this.2.2.1, this.2.2.2.2.2.2.2] <;>
        split <;> simp_all
  · cases h2 : s.xhr_
    · simp [h2]
    · simp [h2] at h

/-- Events of `cleanUpXhr_` outside disposal, when a handle is present. -/
theorem cleanUpXhr_ready (s : St) (h : s.xhr_.isSome = true) :
    (cleanUpXhr_ false s).2 = [Ev.ready] := by
  unfold cleanUpXhr_
  simp [h]

/-- Events of `cleanUpXhr_` on the disposal path: none. -/
theorem cleanUpXhr_silent (s : St) :
    (cleanUpXhr_ true s).2 = [] := by
  unfold cleanUpXhr_
  split <;> simp

/-- The shared notification handler ignores notifications on an inactive
controller. -/
theorem helper_not_active (env : Env) (s : St) (h : s.active_ = false) :
    onReadyStateChangeHelper_ env s = (s, []) := by
  unfold onReadyStateChangeHelper_
  simp [h]

/-- On a non-disposed controller, both routing branches of
`onReadyStateChange_` reach the shared handler. -/
theorem orsc_eq_helper (env : Env) (s : St) (h : s.disposed = false) :
    onReadyStateChange_ env s = onReadyStateChangeHelper_ env s := by
  unfold onReadyStateChange_ onReadyStateChangeEntryPoint_
  simp [h]

/-- A disposed controller ignores every notification. -/
theorem orsc_disposed (env : Env) (s : St) (h : s.disposed = true) :
    onReadyStateChange_ env s = (s, []) := by
  unfold onReadyStateChange_
  simp [h]

/-- While the controller's own `xhr_.send` call is on the stack, the shared
handler never processes a terminal readiness: it either ignores the
notification, defers it through the zero-delay timer, or just reports
progress. -/
theorem helper_in_send (env : Env) (s : St) (h1 : s.active_ = true)
    (h2 : s.inSend_ = true) :
    onReadyStateChangeHelper_ env s = (s, []) ∨
    onReadyStateChangeHelper_ env s = ({ s with pendingRsc := true }, []) ∨
    onReadyStateChangeHelper_ env s = (s, [Ev.readyStateChange]) := by
  unfold onReadyStateChangeHelper_
  split
  · rename_i h
    rw [h1] at h
    simp at h
  · split
    · exact Or.inl rfl
    · split
      · exact Or.inr (Or.inl rfl)
      · rename_i hr
        split
        · rename_i hc
          refine absurd ?_ hr
          rw [h2]
          simpa [isComplete] using hc
        · exact Or.inr (Or.inr rfl)

/-- The shared handler on an active notification whose readiness is not
terminal just dispatches READY_STATE_CHANGE. -/
theorem helper_rs_ne4 (env : Env) (s : St) (h1 : s.active_ = true)
    (h4 : (getReadyState s == ReadyStateCOMPLETE) = false) :
    onReadyStateChangeHelper_ env s = (s, [Ev.readyStateChange]) := by
  unfold onReadyStateChangeHelper_
  split
  · rename_i h
    rw [h1] at h
    simp at h
  · split
    · rename_i h
      simp [h4] at h
    · split
      · rename_i h
        simp [h4] at h
      · split
        · rename_i hc
          simp [isComplete, h4] at hc
        · rfl

/-- The shared handler from an in-flight state: it ignores the notification
(local-request pseudo-error), reports progress, or processes the terminal
readiness, emitting READY_STATE_CHANGE, the outcome pair and READY and
ending the cycle. -/
theorem helper_flight (env : Env) (s : St) (h : InFlight s) :
    onReadyStateChangeHelper_ env s = (s, []) ∨
    onReadyStateChangeHelper_ env s = (s, [Ev.readyStateChange]) ∨
    (∃ s2 x, (x = Ev.success ∨ x = Ev.error) ∧
      onReadyStateChangeHelper_ env s =
        (s2, [Ev.readyStateChange, Ev.complete, x, Ev.ready]) ∧ DoneSt s2) := by
  obtain ⟨ha, hx, hs, hd, he⟩ := h
  unfold onReadyStateChangeHelper_
  split
  · rename_i hcond
    rw [ha] at hcond
    simp at hcond
  · split
    · exact Or.inl rfl
    · split
      · rename_i hcond
        rw [hs] at hcond
        simp at hcond
      · split
        · rename_i hc
          dsimp only
          split
          · rename_i hsucc
            have hx2 : ({ s with active_ := false } : St).xhr_.isSome = true := hx
            have hready := cleanUpXhr_ready { s with active_ := false } hx2
            have hproj := cleanUpXhr_proj false { s with active_ := false }
            refine Or.inr (Or.inr ⟨(cleanUpXhr_ false { s with active_ := false }).1,
              Ev.success, Or.inl rfl, ?_, ?_, ?_, ?_⟩)
            · rw [hready]
              rfl
            · rw [hproj.2.1]
            · exact hproj.1
            · rw [hproj.2.2.1]
              exact hd
          · rename_i hsucc
            have hde : dispatchErrors_ { s with
                active_ := false
                lastErrorCode_ := ErrorCode.HTTP_ERROR
                lastError_ := getStatusText { s with active_ := false } ++ " [" ++
                  toString (getStatus { s with active_ := false }) ++ "]" } =
              ({ s with
                active_ := false
                lastErrorCode_ := ErrorCode.HTTP_ERROR
                lastError_ := getStatusText { s with active_ := false } ++ " [" ++
                  toString (getStatus { s with active_ := false }) ++ "]"
                errorDispatched_ := true }, [Ev.complete, Ev.error]) := by
              unfold dispatchErrors_
              simp [he]
            rw [hde]
            have hx3 : ({ s with
                active_ := false
                lastErrorCode_ := ErrorCode.HTTP_ERROR
                lastError_ := getStatusText { s with active_ := false } ++ " [" ++
                  toString (getStatus { s with active_ := false }) ++ "]"
                errorDispatched_ := true } : St).xhr_.isSome = true := hx
            have hready := cleanUpXhr_ready _ hx3
            have hproj := cleanUpXhr_proj false { s with
                active_ := false
                lastErrorCode_ := ErrorCode.HTTP_ERROR
                lastError_ := getStatusText { s with active_ := false } ++ " [" ++
                  toString (getStatus { s with active_ := false }) ++ "]"
                errorDispatched_ := true }
            refine Or.inr (Or.inr ⟨(cleanUpXhr_ false { s with
                active_ := false
                lastErrorCode_ := ErrorCode.HTTP_ERROR
                lastError_ := getStatusText { s with active_ := false } ++ " [" ++
                  toString (getStatus { s with active_ := false }) ++ "]"
                errorDispatched_ := true }).1, Ev.error, Or.inr rfl, ?_, ?_, ?_, ?_⟩)
            · rw [hready]
              rfl
            · rw [hproj.2.1]
            · exact hproj.1
            · rw [hproj.2.2.1]
              exact hd
        · exact Or.inr (Or.inl rfl)

/-- A re-entrant notification from inside `xhr_.abort()` on an already
inactive controller changes nothing observable: no events, and the
lifecycle-relevant fields are untouched. -/
theorem xhrAbortCall_inactive (env : Env) (s : St) (ha : s.active_ = false) :
    (xhrAbortCall env s).2 = [] ∧ (xhrAbortCall env s).1.active_ = false ∧
    (xhrAbortCall env s).1.xhr_.isSome = s.xhr_.isSome ∧
    (xhrAbortCall env s).1.errorDispatched_ = s.errorDispatched_ ∧
    (xhrAbortCall env s).1.disposed = s.disposed ∧
    (s.xhr_.isSome = true → (xhrAbortCall env s).1.abortCalls = s.abortCalls + 1) := by
  unfold xhrAbortCall
  cases hx : s.xhr_ with
  | none => simp [hx, ha]
  | some x =>
    cases hn : x.notifyOnAbort with
    | none => simp [hx, hn, ha]
    | some rsst =>
      simp only [hx, hn, withXhr]
      by_cases hd : s.disposed = true
      · rw [orsc_disposed env _ (by simpa using hd)]
        simp [ha, hx]
      · rw [orsc_eq_helper env _ (by simpa using hd)]
        rw [helper_not_active env _ (by simpa using ha)]
        simp [ha, hx]

/-- The unified error path from a state holding an undispatched handle:
exactly the COMPLETE, ERROR, READY sequence is emitted and the cycle ends. -/
theorem error_spec (env : Env) (ec : ErrorCode) (msg : String) (s : St)
    (hx : s.xhr_.isSome = true) (he : s.errorDispatched_ = false)
    (hd : s.disposed = false) :
    DoneSt (error_ env ec msg s).1 ∧
    (error_ env ec msg s).2 = [Ev.complete, Ev.error, Ev.ready] := by
  obtain ⟨e1, a1, x1, ed1, d1, ac1⟩ :=
    xhrAbortCall_inactive env { s with active_ := false, inAbort_ := true } rfl
  unfold error_
  dsimp only
  rw [if_pos (by simpa using hx)]
  dsimp only
  have hflag : ((xhrAbortCall env { s with active_ := false, inAbort_ := true }).1.errorDispatched_) = false := by
    rw [ed1]
    exact he
  have hde : dispatchErrors_ { (xhrAbortCall env { s with active_ := false, inAbort_ := true }).1 with
      inAbort_ := false, lastError_ := msg, lastErrorCode_ := ec } =
    ({ (xhrAbortCall env { s with active_ := false, inAbort_ := true }).1 with
      inAbort_ := false, lastError_ := msg, lastErrorCode_ := ec,
      errorDispatched_ := true }, [Ev.complete, Ev.error]) := by
    unfold dispatchErrors_
    simp [hflag]
  rw [hde]
  have hx2 : ({ (xhrAbortCall env { s with active_ := false, inAbort_ := true }).1 with
      inAbort_ := false, lastError_ := msg, lastErrorCode_ := ec,
      errorDispatched_ := true } : St).xhr_.isSome = true := by
    simpa [x1] using hx
  have hproj := cleanUpXhr_proj false { (xhrAbortCall env { s with active_ := false, inAbort_ := true }).1 with
      inAbort_ := false, lastError_ := msg, lastErrorCode_ := ec,
      errorDispatched_ := true }
  refine ⟨⟨?_, hproj.1, ?_⟩, ?_⟩
  · rw [hproj.2.1]
    simpa using a1
  · rw [hproj.2.2.1]
    simpa [d1] using hd
  · rw [cleanUpXhr_ready _ hx2, e1]
    rfl

/-- `SendQuiet` is reflexive. -/
theorem sendQuiet_refl (s : St) : SendQuiet s s :=
  ⟨rfl, rfl, rfl, rfl, rfl, rfl, rfl, rfl, rfl, rfl, rfl, rfl⟩

/-- `SendQuiet` composes. -/
theorem sendQuiet_trans (s1 s2 s3 : St) (h1 : SendQuiet s1 s2)
    (h2 : SendQuiet s2 s3) : SendQuiet s1 s3 :=
  ⟨h2.active.trans h1.active, h2.inSend.trans h1.inSend,
    h2.inOpen.trans h1.inOpen, h2.inAbort.trans h1.inAbort,
    h2.disposed.trans h1.disposed, h2.errorDispatched.trans h1.errorDispatched,
    h2.timeoutId.trans h1.timeoutId, h2.useXhr2.trans h1.useXhr2,
    h2.lastUri.trans h1.lastUri, h2.xhrOptions.trans h1.xhrOptions,
    h2.xhrData.trans h1.xhrData, h2.xhrSome.trans h1.xhrSome⟩

/-- Moving the handle's reported readiness/status is `SendQuiet`. -/
theorem sendQuiet_withXhr_rs (s : St) (rs : Nat) (st : Int) :
    SendQuiet s (withXhr s (fun x => { x with readyState := rs, status := st })) := by
  cases h : s.xhr_ <;> refine ⟨?_, ?_, ?_, ?_, ?_, ?_, ?_, ?_, ?_, ?_, ?_, ?_⟩ <;>
    simp [withXhr, h]

/-- Raising the reschedule flag is `SendQuiet`. -/
theorem sendQuiet_pendingRsc (s : St) :
    SendQuiet s { s with pendingRsc := true } :=
  ⟨rfl, rfl, rfl, rfl, rfl, rfl, rfl, rfl, rfl, rfl, rfl, rfl⟩

/-- `SendQuiet` preserves the applied request headers. -/
theorem sendQuiet_reqHeaders (s s2 : St) (h : SendQuiet s s2) :
    (s2.xhr_.map fun x => x.requestHeaders) =
      (s.xhr_.map fun x => x.requestHeaders) := by
  have hd := h.xhrData
  cases h2 : s2.xhr_ <;> cases h1 : s.xhr_ <;> rw [h2, h1] at hd <;>
    simp at hd <;> simp [h1, h2, hd]

/-- `SendQuiet` preserves the native timeout arming. -/
theorem sendQuiet_nativeArmed (s s2 : St) (h : SendQuiet s s2) :
    nativeArmed s2 = nativeArmed s := by
  have hd := h.xhrData
  unfold nativeArmed
  cases h2 : s2.xhr_ <;> cases h1 : s.xhr_ <;> rw [h2, h1] at hd <;>
    simp at hd <;> simp [hd]

/-- The handle's synchronous in-send notifications only report progress:
the controller state is `SendQuiet`-preserved (in particular no terminal
processing happens), and only READY_STATE_CHANGE events are dispatched. -/
theorem runSyncNotes_spec (env : Env) (notes : List (Nat × Int)) :
    ∀ s : St, s.active_ = true → s.inSend_ = true →
      SendQuiet s (runSyncNotes env notes s).1 ∧
      RscOnly (runSyncNotes env notes s).2 := by
  induction notes with
  | nil =>
    intro s ha hs
    exact ⟨sendQuiet_refl s, by intro e he; simp [runSyncNotes] at he⟩
  | cons n rest ih =>
    intro s ha hs
    unfold runSyncNotes
    dsimp only
    set w := withXhr s (fun x => { x with readyState := n.1, status := n.2 }) with hw
    have hq0 : SendQuiet s w := sendQuiet_withXhr_rs s n.1 n.2
    have hwa : w.active_ = true := by rw [hq0.active]; exact ha
    have hws : w.inSend_ = true := by rw [hq0.inSend]; exact hs
    have hstep : ∃ w2, onReadyStateChange_ env w = (w2, (onReadyStateChange_ env w).2) ∧
        SendQuiet w w2 ∧ RscOnly (onReadyStateChange_ env w).2 := by
      by_cases hd : w.disposed = true
      · rw [orsc_disposed env w hd]
        exact ⟨w, rfl, sendQuiet_refl w, by intro e he; simp at he⟩
      · rw [orsc_eq_helper env w (by simpa using hd)]
        rcases helper_in_send env w hwa hws with h | h | h
        · rw [h]
          exact ⟨w, rfl, sendQuiet_refl w, by intro e he; simp at he⟩
        · rw [h]
          exact ⟨{ w with pendingRsc := true }, rfl, sendQuiet_pendingRsc w,
            by intro e he; simp at he⟩
        · rw [h]
          refine ⟨w, rfl, sendQuiet_refl w, ?_⟩
          intro e he
          simpa using he
    obtain ⟨w2, hw2, hq1, hrsc1⟩ := hstep
    rw [hw2]
    dsimp only
    have hw2a : w2.active_ = true := by rw [hq1.active]; exact hwa
    have hw2s : w2.inSend_ = true := by rw [hq1.inSend]; exact hws
    obtain ⟨hq2, hrsc2⟩ := ih w2 hw2a hw2s
    refine ⟨sendQuiet_trans s w2 _ (sendQuiet_trans s w w2 hq0 hq1) hq2, ?_⟩
    intro e he
    rcases List.mem_append.1 he with h | h
    · exact hrsc1 e h
    · exact hrsc2 e h

/-- The handle's synchronous OPENED notification from inside `open()` on an
active, non-disposed controller: either nothing happens or a single
READY_STATE_CHANGE is dispatched with the handle moved to readiness 1. -/
theorem xhrOpenNotify_spec (env : Env) (s : St) (x : Xhr) (hx : s.xhr_ = some x)
    (ha : s.active_ = true) (hd : s.disposed = false) :
    xhrOpenNotify env s = (s, []) ∨
    xhrOpenNotify env s =
      ({ s with xhr_ := some { x with readyState := 1 } }, [Ev.readyStateChange]) := by
  unfold xhrOpenNotify
  rw [hx]
  dsimp only
  by_cases hn : x.notifyOnOpen = true
  · rw [if_pos hn]
    rw [show (withXhr s fun y => { y with readyState := 1 }) =
      { s with xhr_ := some { x with readyState := 1 } } from by
        unfold withXhr
        rw [hx]]
    have hupd : ({ s with xhr_ := some { x with readyState := 1 } } : St).disposed = false := hd
    rw [orsc_eq_helper env _ hupd]
    rw [helper_rs_ne4 env _ ?_ ?_]
    · exact Or.inr rfl
    · exact ha
    · simp [getReadyState, ReadyStateCOMPLETE]
  · rw [if_neg hn]
    exact Or.inl rfl

/-- Rewriting form of `withXhr` when a handle is present. -/
theorem withXhr_some (s : St) (x : Xhr) (f : Xhr → Xhr) (hx : s.xhr_ = some x) :
    withXhr s f = { s with xhr_ := some (f x) } := by
  unfold withXhr
  rw [hx]

/-- Structure eta for the timeout id. -/
theorem st_eta_timeoutId (s : St) (h : s.timeoutId_ = none) :
    { s with timeoutId_ := none } = s := by
  cases s
  simp_all

/-- Rewriting form of `cleanUpTimeoutTimer_` when a handle is present. -/
theorem ctt_eq (s : St) (x : Xhr) (hx : s.xhr_ = some x) :
    cleanUpTimeoutTimer_ s =
      { s with
        xhr_ := some (if s.useXhr2Timeout_ then { x with ontimeoutSet := false } else x)
        timeoutId_ := none } := by
  obtain ⟨hdrs, act, xh, xo, lu, lm, lec, le, ed, isend, iopen, iab, ti, tid,
    rt, wc, u2, dsp, prsc, ac⟩ := s
  cases hx
  cases tid <;> by_cases hu : u2 = true <;>
    simp [cleanUpTimeoutTimer_, withXhr, hu]

/-- The empty trace is READY_STATE_CHANGE-only. -/
theorem rscOnly_nil : RscOnly [] := by
  intro e he
  simp at he

/-- READY_STATE_CHANGE-only traces concatenate. -/
theorem rscOnly_append (a b : List Ev) (ha : RscOnly a) (hb : RscOnly b) :
    RscOnly (a ++ b) := by
  intro e he
  rcases List.mem_append.1 he with h | h
  · exact ha e h
  · exact hb e h

/-- Assembling a finished-cycle trace from a progress part and the unified
error dispatch. -/
theorem termTrace_of_parts (a b c2 : List Ev) (ha : RscOnly a) (hb : RscOnly b)
    (hc : c2 = [Ev.complete, Ev.error, Ev.ready]) : TermTrace (a ++ b ++ c2) :=
  ⟨a ++ b, Ev.error, rscOnly_append a b ha hb, Or.inr rfl, by rw [hc]⟩

/-- After the synchronous in-send notifications, dropping the `inSend_`
guard leaves the controller in flight, with only progress events emitted. -/
theorem notesThenOk (env : Env) (notes : List (Nat × Int)) (t : St)
    (ha : t.active_ = true) (hsn : t.inSend_ = true) (hd : t.disposed = false)
    (he : t.errorDispatched_ = false) (hx : t.xhr_.isSome = true) :
    InFlight { (runSyncNotes env notes t).1 with inSend_ := false } ∧
    RscOnly (runSyncNotes env notes t).2 := by
  obtain ⟨hq, hrsc⟩ := runSyncNotes_spec env notes t ha hsn
  exact ⟨⟨by simpa using hq.active.trans ha, by simpa using hq.xhrSome.trans hx,
    by simp, by simpa using hq.disposed.trans hd,
    by simpa using hq.errorDispatched.trans he⟩, hrsc⟩

/-- After the synchronous in-send notifications, an exception from the
transport's `send` routes through `error_`: the cycle ends with the
COMPLETE, ERROR, READY tail. -/
theorem notesThenError (env : Env) (msg : String) (notes : List (Nat × Int))
    (t : St)
    (ha : t.active_ = true) (hsn : t.inSend_ = true) (hd : t.disposed = false)
    (he : t.errorDispatched_ = false) (hx : t.xhr_.isSome = true) :
    DoneSt (error_ env ErrorCode.EXCEPTION msg (runSyncNotes env notes t).1).1 ∧
    (error_ env ErrorCode.EXCEPTION msg (runSyncNotes env notes t).1).2 =
      [Ev.complete, Ev.error, Ev.ready] ∧
    RscOnly (runSyncNotes env notes t).2 := by
  obtain ⟨hq, hrsc⟩ := runSyncNotes_spec env notes t ha hsn
  have hE := error_spec env ErrorCode.EXCEPTION msg (runSyncNotes env notes t).1
    (hq.xhrSome.trans hx) (hq.errorDispatched.trans he) (hq.disposed.trans hd)
  exact ⟨hE.1, hE.2, hrsc⟩

/-- What the configuration block of `send` does to the controller state:
everything outside the handle and the timeout bookkeeping is untouched, the
effective headers are applied to the handle, and the armed timeout
mechanisms are exactly as the capability probe dictates. -/
theorem sendApplyConfig_spec (env : Env) (x0 : Xhr)
    (hdrs : List (String × String)) (s : St) (x : Xhr) (hx : s.xhr_ = some x) :
    (sendApplyConfig env x0 hdrs s).active_ = s.active_ ∧
    (sendApplyConfig env x0 hdrs s).inSend_ = s.inSend_ ∧
    (sendApplyConfig env x0 hdrs s).inOpen_ = s.inOpen_ ∧
    (sendApplyConfig env x0 hdrs s).disposed = s.disposed ∧
    (sendApplyConfig env x0 hdrs s).errorDispatched_ = s.errorDispatched_ ∧
    (sendApplyConfig env x0 hdrs s).headers = s.headers ∧
    (sendApplyConfig env x0 hdrs s).lastUri_ = s.lastUri_ ∧
    (sendApplyConfig env x0 hdrs s).xhrOptions_ = s.xhrOptions_ ∧
    (sendApplyConfig env x0 hdrs s).timeoutInterval_ = s.timeoutInterval_ ∧
    ((sendApplyConfig env x0 hdrs s).xhr_.map fun y => y.requestHeaders) = some hdrs ∧
    (sendApplyConfig env x0 hdrs s).xhr_.isSome = true ∧
    fallbackArmed (sendApplyConfig env x0 hdrs s) =
      (decide (0 < s.timeoutInterval_) && !shouldUseXhr2Timeout_ env x0) ∧
    nativeArmed (sendApplyConfig env x0 hdrs s) =
      ((decide (0 < s.timeoutInterval_) && shouldUseXhr2Timeout_ env x0) ||
        (!s.useXhr2Timeout_ && x.ontimeoutSet)) := by
  obtain ⟨hdrs0, act, xh, xo, lu, lm, lec, le, ed, isend, iopen, iab, ti, tid,
    rt, wc, u2, dsp, prsc, ac⟩ := s
  cases hx
  by_cases hgt : (0 : Int) < ti <;>
    by_cases hu : shouldUseXhr2Timeout_ env x0 = true <;>
    by_cases hu2 : u2 = true <;>
    by_cases hrt : (rt != "") = true <;>
    cases tid <;>
    simp [sendApplyConfig, withXhr, cleanUpTimeoutTimer_, fallbackArmed,
      nativeArmed, hgt, hu, hu2, hrt]

set_option maxHeartbeats 1000000 in
/-- Classification of `send` from a handle-free, non-disposed controller:
the precondition passes, and the call either leaves the controller in
flight having emitted only progress events, or (when `open`/`send` threw)
ends the cycle with a trace of progress events followed by the COMPLETE,
ERROR, READY tail. -/
theorem sendM_classify (env : Env) (x0 : Xhr) (opts : XhrOptions) (url : String)
    (optM : Option String) (c : Content) (hs : List (String × String)) (s0 : St)
    (h0 : s0.xhr_ = none) (hd : s0.disposed = false) :
    (sendM env x0 opts url optM c hs s0).2 = none ∧
    ((InFlight (sendM env x0 opts url optM c hs s0).1.1 ∧
      RscOnly (sendM env x0 opts url optM c hs s0).1.2) ∨
     (DoneSt (sendM env x0 opts url optM c hs s0).1.1 ∧
      TermTrace (sendM env x0 opts url optM c hs s0).1.2)) := by
  unfold sendM
  split
  · rename_i hcond
    rw [h0] at hcond
    simp at hcond
  · cases hot : x0.openThrows with
    | some msg =>
      dsimp only
      refine ⟨rfl, Or.inr ⟨?_, ?_⟩⟩
      · exact (error_spec env ErrorCode.EXCEPTION msg { s0 with
          active_ := true, xhr_ := some x0, xhrOptions_ := some opts,
          lastUri_ := url, lastMethod_ := methodName optM,
          lastErrorCode_ := ErrorCode.NO_ERROR, lastError_ := "",
          errorDispatched_ := false, inOpen_ := true } rfl rfl hd).1
      · rw [(error_spec env ErrorCode.EXCEPTION msg { s0 with
          active_ := true, xhr_ := some x0, xhrOptions_ := some opts,
          lastUri_ := url, lastMethod_ := methodName optM,
          lastErrorCode_ := ErrorCode.NO_ERROR, lastError_ := "",
          errorDispatched_ := false, inOpen_ := true } rfl rfl hd).2]
        exact ⟨[], Ev.error, rscOnly_nil, Or.inr rfl, rfl⟩
    | none =>
      cases hst : x0.sendThrows with
      | none =>
        dsimp only
        rcases xhrOpenNotify_spec env { s0 with
            active_ := true, xhr_ := some x0, xhrOptions_ := some opts,
            lastUri_ := url, lastMethod_ := methodName optM,
            lastErrorCode_ := ErrorCode.NO_ERROR, lastError_ := "",
            errorDispatched_ := false, inOpen_ := true } x0 rfl rfl hd
          with ho | ho
        all_goals rw [ho]
        all_goals try dsimp only
        · obtain ⟨hca, hcs, hco, hcd, hce, hch, hcu, hcx, hcti, hcreq, hcsome,
            hcfb, hcna⟩ := sendApplyConfig_spec env x0
            (buildHeaders s0.headers hs (methodName optM) (isFormData c))
            { s0 with
              active_ := true, xhr_ := some x0, xhrOptions_ := some opts,
              lastUri_ := url, lastMethod_ := methodName optM,
              lastErrorCode_ := ErrorCode.NO_ERROR, lastError_ := "",
              errorDispatched_ := false, inOpen_ := false } x0 rfl
          refine ⟨by trivial, Or.inl ⟨(notesThenOk env x0.syncSendNotes _
              (by simpa using hca) (by simp) (by rw [hcd]; exact hd)
              (by simpa using hce) (by simpa using hcsome)).1,
            rscOnly_append _ _ rscOnly_nil
              (notesThenOk env x0.syncSendNotes _
                (by simpa using hca) (by simp) (by rw [hcd]; exact hd)
                (by simpa using hce) (by simpa using hcsome)).2⟩⟩
        · obtain ⟨hca, hcs, hco, hcd, hce, hch, hcu, hcx, hcti, hcreq, hcsome,
            hcfb, hcna⟩ := sendApplyConfig_spec env x0
            (buildHeaders s0.headers hs (methodName optM) (isFormData c))
            { s0 with
              active_ := true, xhr_ := some { x0 with readyState := 1 },
              xhrOptions_ := some opts,
              lastUri_ := url, lastMethod_ := methodName optM,
              lastErrorCode_ := ErrorCode.NO_ERROR, lastError_ := "",
              errorDispatched_ := false, inOpen_ := false }
            { x0 with readyState := 1 } rfl
          refine ⟨by trivial, Or.inl ⟨(notesThenOk env x0.syncSendNotes _
              (by simpa using hca) (by simp) (by rw [hcd]; exact hd)
              (by simpa using hce) (by simpa using hcsome)).1,
            rscOnly_append _ _ (by intro e he; simpa using he)
              (notesThenOk env x0.syncSendNotes _
                (by simpa using hca) (by simp) (by rw [hcd]; exact hd)
                (by simpa using hce) (by simpa using hcsome)).2⟩⟩
      | some msg =>
        dsimp only
        rcases xhrOpenNotify_spec env { s0 with
            active_ := true, xhr_ := some x0, xhrOptions_ := some opts,
            lastUri_ := url, lastMethod_ := methodName optM,
            lastErrorCode_ := ErrorCode.NO_ERROR, lastError_ := "",
            errorDispatched_ := false, inOpen_ := true } x0 rfl rfl hd
          with ho | ho
        all_goals rw [ho]
        all_goals try dsimp only
        · obtain ⟨hca, hcs, hco, hcd, hce, hch, hcu, hcx, hcti, hcreq, hcsome,
            hcfb, hcna⟩ := sendApplyConfig_spec env x0
            (buildHeaders s0.headers hs (methodName optM) (isFormData c))
            { s0 with
              active_ := true, xhr_ := some x0, xhrOptions_ := some opts,
              lastUri_ := url, lastMethod_ := methodName optM,
              lastErrorCode_ := ErrorCode.NO_ERROR, lastError_ := "",
              errorDispatched_ := false, inOpen_ := false } x0 rfl
          refine ⟨by trivial, Or.inr ⟨(notesThenError env msg x0.syncSendNotes _
              (by simpa using hca) (by simp) (by rw [hcd]; exact hd)
              (by simpa using hce) (by simpa using hcsome)).1,
            termTrace_of_parts _ _ _ rscOnly_nil
              (notesThenError env msg x0.syncSendNotes _
                (by simpa using hca) (by simp) (by rw [hcd]; exact hd)
                (by simpa using hce) (by simpa using hcsome)).2.2
              (notesThenError env msg x0.syncSendNotes _
                (by simpa using hca) (by simp) (by rw [hcd]; exact hd)
                (by simpa using hce) (by simpa using hcsome)).2.1⟩⟩
        · obtain ⟨hca, hcs, hco, hcd, hce, hch, hcu, hcx, hcti, hcreq, hcsome,
            hcfb, hcna⟩ := sendApplyConfig_spec env x0
            (buildHeaders s0.headers hs (methodName optM) (isFormData c))
            { s0 with
              active_ := true, xhr_ := some { x0 with readyState := 1 },
              xhrOptions_ := some opts,
              lastUri_ := url, lastMethod_ := methodName optM,
              lastErrorCode_ := ErrorCode.NO_ERROR, lastError_ := "",
              errorDispatched_ := false, inOpen_ := false }
            { x0 with readyState := 1 } rfl
          refine ⟨by trivial, Or.inr ⟨(notesThenError env msg x0.syncSendNotes _
              (by simpa using hca) (by simp) (by rw [hcd]; exact hd)
              (by simpa using hce) (by simpa using hcsome)).1,
            termTrace_of_parts _ _ _ (by intro e he; simpa using he)
              (notesThenError env msg x0.syncSendNotes _
                (by simpa using hca) (by simp) (by rw [hcd]; exact hd)
                (by simpa using hce) (by simpa using hcsome)).2.2
              (notesThenError env msg x0.syncSendNotes _
                (by simpa using hca) (by simp) (by rw [hcd]; exact hd)
                (by simpa using hce) (by simpa using hcsome)).2.1⟩⟩

/-- `withXhr` preserves being in flight. -/
theorem inFlight_withXhr (s : St) (f : Xhr → Xhr) (h : InFlight s) :
    InFlight (withXhr s f) := by
  cases hxo : s.xhr_ with
  | none => simpa [withXhr, hxo] using h
  | some x =>
    obtain ⟨ha, hx, hsnd, hdp, he⟩ := h
    exact ⟨by simp [withXhr, hxo, ha], by simp [withXhr, hxo],
      by simp [withXhr, hxo, hsnd], by simp [withXhr, hxo, hdp],
      by simp [withXhr, hxo, he]⟩

/-- Prepending progress events to a finished-cycle trace. -/
theorem termTrace_prepend (a b : List Ev) (ha : RscOnly a) (hb : TermTrace b) :
    TermTrace (a ++ b) := by
  obtain ⟨a2, x, ha2, hx, hb2⟩ := hb
  exact ⟨a ++ a2, x, rscOnly_append a a2 ha ha2, hx,
    by rw [hb2, List.append_assoc]⟩

/-- A benign stimulus (an asynchronous notification or the rescheduled
zero-delay notification) on an in-flight controller either keeps it in
flight, emitting at most progress events, or processes the terminal
readiness, emitting READY_STATE_CHANGE, the outcome pair and READY. -/
theorem step_benign_inflight (env : Env) (a : Stim) (s : St)
    (hb : a.benign = true) (h : InFlight s) :
    (InFlight (step env a s).1 ∧ RscOnly (step env a s).2) ∨
    (DoneSt (step env a s).1 ∧ ∃ x, (x = Ev.success ∨ x = Ev.error) ∧
      (step env a s).2 = [Ev.readyStateChange, Ev.complete, x, Ev.ready]) := by
  cases a with
  | note rs status =>
    dsimp [step]
    have hwin : InFlight (withXhr s (fun x => { x with readyState := rs, status := status })) :=
      inFlight_withXhr s _ h
    have hwd : (withXhr s (fun x => { x with readyState := rs, status := status })).disposed = false := by
      rw [(withXhr_proj s _).2.2.2.2.1]
      exact h.2.2.2.1
    rw [orsc_eq_helper env _ hwd]
    rcases helper_flight env _ hwin with h1 | h1 | ⟨s2, xx, hxx, h1, h2⟩
    · rw [h1]
      exact Or.inl ⟨hwin, rscOnly_nil⟩
    · rw [h1]
      exact Or.inl ⟨hwin, by intro e he2; simpa using he2⟩
    · rw [h1]
      exact Or.inr ⟨h2, xx, hxx, rfl⟩
  | rescheduled =>
    dsimp [step]
    by_cases hp : s.pendingRsc = true
    · rw [if_pos hp]
      obtain ⟨ha, hx, hsnd, hdp, he⟩ := h
      have hwin : InFlight { s with pendingRsc := false } :=
        ⟨ha, hx, hsnd, hdp, he⟩
      rw [orsc_eq_helper env _
        (show ({ s with pendingRsc := false } : St).disposed = false from hdp)]
      rcases helper_flight env _ hwin with h1 | h1 | ⟨s2, xx, hxx, h1, h2⟩
      · rw [h1]
        exact Or.inl ⟨hwin, rscOnly_nil⟩
      · rw [h1]
        exact Or.inl ⟨hwin, by intro e he2; simpa using he2⟩
      · rw [h1]
        exact Or.inr ⟨h2, xx, hxx, rfl⟩
    · rw [if_neg hp]
      exact Or.inl ⟨h, rscOnly_nil⟩
  | timerFire => simp [Stim.benign] at hb
  | xhrTimeoutFire => simp [Stim.benign] at hb
  | userAbort code => simp [Stim.benign] at hb
  | disposeCall => simp [Stim.benign] at hb

/-- A benign stimulus on a finished controller does nothing. -/
theorem step_benign_done (env : Env) (a : Stim) (s : St)
    (hb : a.benign = true) (h : DoneSt s) :
    DoneSt (step env a s).1 ∧ (step env a s).2 = [] := by
  obtain ⟨ha, hx, hdp⟩ := h
  cases a with
  | note rs status =>
    dsimp [step]
    rw [show withXhr s (fun x => { x with readyState := rs, status := status }) = s from by
      unfold withXhr
      rw [hx]]
    rw [orsc_eq_helper env s hdp, helper_not_active env s ha]
    exact ⟨⟨ha, hx, hdp⟩, rfl⟩
  | rescheduled =>
    dsimp [step]
    by_cases hp : s.pendingRsc = true
    · rw [if_pos hp]
      have hd2 : ({ s with pendingRsc := false } : St).disposed = false := hdp
      rw [orsc_eq_helper env _ hd2, helper_not_active env _
        (show ({ s with pendingRsc := false } : St).active_ = false from ha)]
      exact ⟨⟨ha, hx, hdp⟩, rfl⟩
    · rw [if_neg hp]
      exact ⟨⟨ha, hx, hdp⟩, rfl⟩
  | timerFire => simp [Stim.benign] at hb
  | xhrTimeoutFire => simp [Stim.benign] at hb
  | userAbort code => simp [Stim.benign] at hb
  | disposeCall => simp [Stim.benign] at hb

/-- Benign stimuli on a finished controller dispatch nothing. -/
theorem run_benign_done (env : Env) (l : List Stim) :
    ∀ s : St, (∀ a ∈ l, a.benign = true) → DoneSt s →
      DoneSt (run env l s).1 ∧ (run env l s).2 = [] := by
  induction l with
  | nil => exact fun s _ h => ⟨h, rfl⟩
  | cons a rest ih =>
    intro s hb h
    have h1 := step_benign_done env a s (hb a (by simp)) h
    have h2 := ih (step env a s).1 (fun b hbm => hb b (by simp [hbm])) h1.1
    unfold run
    dsimp only
    rw [h1.2, h2.2]
    exact ⟨h2.1, rfl⟩

/-- Benign stimuli on an in-flight controller: either the request stays in
flight and only progress events are dispatched, or exactly one terminal
sequence is dispatched and the controller ends the cycle. -/
theorem run_benign_inflight (env : Env) (l : List Stim) :
    ∀ s : St, (∀ a ∈ l, a.benign = true) → InFlight s →
      (InFlight (run env l s).1 ∧ RscOnly (run env l s).2) ∨
      (DoneSt (run env l s).1 ∧ TermTrace (run env l s).2) := by
  induction l with
  | nil => exact fun s _ h => Or.inl ⟨h, rscOnly_nil⟩
  | cons a rest ih =>
    intro s hb h
    have hbrest : ∀ b ∈ rest, b.benign = true := fun b hbm => hb b (by simp [hbm])
    unfold run
    dsimp only
    rcases step_benign_inflight env a s (hb a (by simp)) h with ⟨h1, h1e⟩ | ⟨h1, x, hx, h1e⟩
    · rcases ih (step env a s).1 hbrest h1 with ⟨h2, h2e⟩ | ⟨h2, h2e⟩
      · exact Or.inl ⟨h2, rscOnly_append _ _ h1e h2e⟩
      · exact Or.inr ⟨h2, termTrace_prepend _ _ h1e h2e⟩
    · have h2 := run_benign_done env rest (step env a s).1 hbrest h1
      refine Or.inr ⟨h2.1, ?_⟩
      rw [h1e, h2.2]
      exact ⟨[Ev.readyStateChange], x, by intro e he2; simpa using he2, hx, by simp⟩

/-- `abort` on an active controller with a handle: exactly COMPLETE, ABORT,
READY are dispatched (the handle's own re-entrant notification during
`xhr_.abort()` is ignored), the handle is aborted and released, and the
cycle ends. -/
theorem abort_spec (env : Env) (code : Option ErrorCode) (s : St)
    (hx : s.xhr_.isSome = true) (ha : s.active_ = true) :
    (abort env code s).2 = [Ev.complete, Ev.abort, Ev.ready] ∧
    (abort env code s).1.xhr_ = none ∧
    (abort env code s).1.active_ = false ∧
    (abort env code s).1.disposed = s.disposed ∧
    (abort env code s).1.errorDispatched_ = s.errorDispatched_ ∧
    (abort env code s).1.abortCalls = s.abortCalls + 1 := by
  obtain ⟨e1, a1, x1, ed1, d1, ac1⟩ :=
    xhrAbortCall_inactive env { s with active_ := false, inAbort_ := true } rfl
  unfold abort
  rw [if_pos (by simp [hx, ha])]
  dsimp only
  refine ⟨?_, (cleanUpXhr_proj false _).1, ?_, ?_, ?_, ?_⟩
  · rw [cleanUpXhr_ready _ ?_, e1]
    · rfl
    · simpa [x1] using hx
  · rw [(cleanUpXhr_proj false _).2.1]
    simpa using a1
  · rw [(cleanUpXhr_proj false _).2.2.1]
    simpa using d1
  · rw [(cleanUpXhr_proj false _).2.2.2.1]
    simpa using ed1
  · rw [(cleanUpXhr_proj false _).2.2.2.2]
    simpa using ac1 (by simpa using hx)

/-- `disposeInternal` on an active controller with a handle: the handle is
aborted and released silently — no events at all. -/
theorem disposeInternal_spec (env : Env) (s : St)
    (hx : s.xhr_.isSome = true) (ha : s.active_ = true) :
    (disposeInternal env s).2 = [] ∧
    (disposeInternal env s).1.xhr_ = none ∧
    (disposeInternal env s).1.active_ = false ∧
    (disposeInternal env s).1.disposed = true ∧
    (disposeInternal env s).1.abortCalls = s.abortCalls + 1 := by
  obtain ⟨e1, a1, x1, ed1, d1, ac1⟩ :=
    xhrAbortCall_inactive env { s with active_ := false, inAbort_ := true } rfl
  unfold disposeInternal
  dsimp only
  rw [if_pos (by simpa using hx), if_pos (by simpa using ha)]
  dsimp only
  refine ⟨?_, ?_, ?_, by simp, ?_⟩
  · rw [cleanUpXhr_silent, e1]
    rfl
  · simpa using (cleanUpXhr_proj true _).1
  · dsimp only
    rw [(cleanUpXhr_proj true _).2.1]
    simpa using a1
  · dsimp only
    rw [(cleanUpXhr_proj true _).2.2.2.2]
    simpa using ac1 (by simpa using hx)

/-- Any stimulus on a dead controller (no handle, inactive) is ignored. -/
theorem step_dead (env : Env) (a : Stim) (s : St) (h : DeadSt s) :
    DeadSt (step env a s).1 ∧ (step env a s).2 = [] := by
  obtain ⟨ha, hx⟩ := h
  cases a with
  | note rs status =>
    dsimp [step]
    rw [show withXhr s (fun x => { x with readyState := rs, status := status }) = s from by
      unfold withXhr
      rw [hx]]
    by_cases hd : s.disposed = true
    · rw [orsc_disposed env s hd]
      exact ⟨⟨ha, hx⟩, rfl⟩
    · rw [orsc_eq_helper env s (by simpa using hd), helper_not_active env s ha]
      exact ⟨⟨ha, hx⟩, rfl⟩
  | rescheduled =>
    dsimp [step]
    by_cases hp : s.pendingRsc = true
    · rw [if_pos hp]
      by_cases hd : s.disposed = true
      · rw [orsc_disposed env _
          (show ({ s with pendingRsc := false } : St).disposed = true from hd)]
        exact ⟨⟨ha, hx⟩, rfl⟩
      · rw [orsc_eq_helper env _
          (show ({ s with pendingRsc := false } : St).disposed = false from by
            simpa using hd)]
        rw [helper_not_active env _
          (show ({ s with pendingRsc := false } : St).active_ = false from ha)]
        exact ⟨⟨ha, hx⟩, rfl⟩
    · rw [if_neg hp]
      exact ⟨⟨ha, hx⟩, rfl⟩
  | timerFire =>
    dsimp [step]
    split
    · unfold timeout_
      rw [if_neg (by simp [hx])]
      exact ⟨⟨ha, hx⟩, rfl⟩
    · exact ⟨⟨ha, hx⟩, rfl⟩
  | xhrTimeoutFire =>
    dsimp [step]
    split
    · unfold timeout_
      rw [if_neg (by simp [hx])]
      exact ⟨⟨ha, hx⟩, rfl⟩
    · exact ⟨⟨ha, hx⟩, rfl⟩
  | userAbort code =>
    dsimp [step]
    unfold abort
    rw [if_neg (by simp [hx])]
    exact ⟨⟨ha, hx⟩, rfl⟩
  | disposeCall =>
    dsimp [step]
    unfold dispose
    by_cases hd : s.disposed = true
    · rw [if_pos hd]
      exact ⟨⟨ha, hx⟩, rfl⟩
    · rw [if_neg hd]
      unfold disposeInternal
      dsimp only
      rw [if_neg (by simp [hx])]
      exact ⟨⟨ha, hx⟩, rfl⟩

/-- Stimuli on a dead controller dispatch nothing, ever. -/
theorem run_dead (env : Env) (l : List Stim) :
    ∀ s : St, DeadSt s → DeadSt (run env l s).1 ∧ (run env l s).2 = [] := by
  induction l with
  | nil => exact fun s h => ⟨h, rfl⟩
  | cons a rest ih =>
    intro s h
    have h1 := step_dead env a s h
    have h2 := ih (step env a s).1 h1.1
    unfold run
    dsimp only
    rw [h1.2, h2.2]
    exact ⟨h2.1, rfl⟩

/-- A progress-only trace has no ERROR events. -/
theorem rscOnly_count_error (e : List Ev) (h : RscOnly e) :
    e.count Ev.error = 0 := by
  induction e with
  | nil => rfl
  | cons a rest ih =>
    have ha := h a (by simp)
    have hrest := ih (fun x hx => h x (by simp [hx]))
    subst ha
    simp [List.count_cons, hrest]

/-- A finished-cycle trace has at most one ERROR event. -/
theorem termTrace_count_error (e : List Ev) (h : TermTrace e) :
    e.count Ev.error ≤ 1 := by
  obtain ⟨a2, x, ha2, hx, he⟩ := h
  subst he
  rw [List.count_append, rscOnly_count_error a2 ha2]
  rcases hx with hx | hx <;> subst hx <;> simp [List.count_cons]

/-- Any single stimulus on an in-flight controller either keeps it in
flight without ERROR events, or ends the cycle with at most one ERROR
event. -/
theorem step_inflight_err (env : Env) (a : Stim) (s : St) (h : InFlight s) :
    (InFlight (step env a s).1 ∧ (step env a s).2.count Ev.error = 0) ∨
    (DeadSt (step env a s).1 ∧ (step env a s).2.count Ev.error ≤ 1) := by
  by_cases hb : a.benign = true
  · rcases step_benign_inflight env a s hb h with ⟨h1, h1e⟩ | ⟨h1, x, hx, h1e⟩
    · exact Or.inl ⟨h1, rscOnly_count_error _ h1e⟩
    · refine Or.inr ⟨⟨h1.1, h1.2.1⟩, ?_⟩
      rw [h1e]
      rcases hx with hx | hx <;> subst hx <;> simp [List.count_cons]
  · cases a with
    | note rs status => simp [Stim.benign] at hb
    | rescheduled => simp [Stim.benign] at hb
    | userAbort code =>
      have hA := abort_spec env code s h.2.1 h.1
      dsimp [step]
      refine Or.inr ⟨⟨hA.2.2.1, hA.2.1⟩, ?_⟩
      rw [hA.1]
      simp [List.count_cons]
    | timerFire =>
      dsimp [step]
      split
      · unfold timeout_
        rw [if_pos h.2.1]
        dsimp only
        have hA := abort_spec env (some ErrorCode.TIMEOUT) { s with
            lastError_ := "Timed out after " ++ toString s.timeoutInterval_ ++ "ms, aborting"
            lastErrorCode_ := ErrorCode.TIMEOUT } h.2.1 h.1
        refine Or.inr ⟨⟨hA.2.2.1, hA.2.1⟩, ?_⟩
        rw [hA.1]
        simp [List.count_cons]
      · exact Or.inl ⟨h, rfl⟩
    | xhrTimeoutFire =>
      dsimp [step]
      split
      · unfold timeout_
        rw [if_pos h.2.1]
        dsimp only
        have hA := abort_spec env (some ErrorCode.TIMEOUT) { s with
            lastError_ := "Timed out after " ++ toString s.timeoutInterval_ ++ "ms, aborting"
            lastErrorCode_ := ErrorCode.TIMEOUT } h.2.1 h.1
        refine Or.inr ⟨⟨hA.2.2.1, hA.2.1⟩, ?_⟩
        rw [hA.1]
        simp [List.count_cons]
      · exact Or.inl ⟨h, rfl⟩
    | disposeCall =>
      dsimp [step]
      unfold dispose
      rw [if_neg (by simp [h.2.2.2.1])]
      have hD := disposeInternal_spec env s h.2.1 h.1
      refine Or.inr ⟨⟨hD.2.2.1, hD.2.1⟩, ?_⟩
      rw [hD.1]
      simp

/-- Over any stimulus sequence, a cycle begun in flight dispatches at most
one ERROR event. -/
theorem run_inflight_err (env : Env) (l : List Stim) :
    ∀ s : St, InFlight s → (run env l s).2.count Ev.error ≤ 1 := by
  induction l with
  | nil =>
    intro s h
    simp [run]
  | cons a rest ih =>
    intro s h
    unfold run
    dsimp only
    rw [List.count_append]
    rcases step_inflight_err env a s h with ⟨h1, h1e⟩ | ⟨h1, h1e⟩
    · have := ih (step env a s).1 h1
      omega
    · have h2 := run_dead env rest (step env a s).1 h1
      rw [h2.2]
      simpa using h1e

/-- Claim C1, counterexample: a request cycle started by `send` and ended by
a user `abort` dispatches COMPLETE, ABORT, READY — neither SUCCESS nor ERROR
fires, so it is not the case that exactly one of SUCCESS/ERROR fires for
every cycle started by `send`. -/
theorem claim1_counterexample :
    cycleEvents env0 freshXhr opts0 "http://x/y" none Content.empty []
      [Stim.userAbort none] initState = [Ev.complete, Ev.abort, Ev.ready] ∧
    ¬((cycleEvents env0 freshXhr opts0 "http://x/y" none Content.empty []
        [Stim.userAbort none] initState).count Ev.success +
      (cycleEvents env0 freshXhr opts0 "http://x/y" none Content.empty []
        [Stim.userAbort none] initState).count Ev.error = 1) := by
  constructor
  · rfl
  · decide

/-- Claim C1 (amended): for every request cycle started by `send` on a
handle-free, non-disposed controller and driven by readiness notifications
only (no abort, no dispose, no timeout firing), the dispatched trace is
READY_STATE_CHANGE events optionally followed by the terminal sequence
COMPLETE, exactly one of SUCCESS/ERROR, READY — so whenever SUCCESS or ERROR
fires it fires exactly once, is immediately preceded by exactly one COMPLETE
and followed by exactly one READY, and all READY_STATE_CHANGE events precede
the terminal sequence. -/
theorem claim1_cycle_pattern (env : Env) (x0 : Xhr) (opts : XhrOptions)
    (url : String) (optM : Option String) (c : Content)
    (hs : List (String × String)) (l : List Stim) (s0 : St)
    (h0 : s0.xhr_ = none) (hd : s0.disposed = false)
    (hb : ∀ a ∈ l, a.benign = true) :
    CyclePattern (cycleEvents env x0 opts url optM c hs l s0) := by
  unfold cycleEvents
  dsimp only
  rcases (sendM_classify env x0 opts url optM c hs s0 h0 hd).2 with
    ⟨h1, h1e⟩ | ⟨h1, h1e⟩
  · rcases run_benign_inflight env l _ hb h1 with ⟨h2, h2e⟩ | ⟨h2, h2e⟩
    · exact Or.inl (rscOnly_append _ _ h1e h2e)
    · exact Or.inr (termTrace_prepend _ _ h1e h2e)
  · have h2 := run_benign_done env l _ hb h1
    refine Or.inr ?_
    rw [h2.2, List.append_nil]
    exact h1e

/-- Claim C1 witness: a concrete successful cycle (readiness 4, status 200)
matches the pattern. -/
theorem claim1_witness :
    CyclePattern (cycleEvents env0 freshXhr opts0 "http://x/y" none
      Content.empty [] [Stim.note 4 200] initState) :=
  claim1_cycle_pattern env0 freshXhr opts0 "http://x/y" none Content.empty []
    [Stim.note 4 200] initState rfl rfl (by decide)

/-- Claim C2: over one request cycle — a `send` followed by any sequence of
stimuli (notifications, timer firings, aborts, dispose) — at most one ERROR
event is dispatched, however many independent failure origins occur; and the
unified error dispatch is inert once `errorDispatched_` is set. -/
theorem claim2_error_dispatched_once (env : Env) (x0 : Xhr)
    (opts : XhrOptions) (url : String) (optM : Option String) (c : Content)
    (hs : List (String × String)) (l : List Stim) (s0 : St)
    (h0 : s0.xhr_ = none) (hd : s0.disposed = false) :
    (cycleEvents env x0 opts url optM c hs l s0).count Ev.error ≤ 1 ∧
    (∀ t : St, t.errorDispatched_ = true → dispatchErrors_ t = (t, [])) := by
  constructor
  · unfold cycleEvents
    dsimp only
    rw [List.count_append]
    rcases (sendM_classify env x0 opts url optM c hs s0 h0 hd).2 with
      ⟨h1, h1e⟩ | ⟨h1, h1e⟩
    · rw [rscOnly_count_error _ h1e]
      have := run_inflight_err env l _ h1
      omega
    · have hc1 := termTrace_count_error _ h1e
      have h2 := run_dead env l _ ⟨h1.1, h1.2.1⟩
      rw [h2.2]
      simpa using hc1
  · intro t ht
    unfold dispatchErrors_
    simp [ht]

/-- Claim C2 witness: the IE-style double-failure cycle — the handle fires a
synchronous complete notification with an HTTP error status from inside
`send()`, `send()` then throws, and a late notification still arrives — at a
concrete input. -/
theorem claim2_witness :
    (cycleEvents env0 ieDoubleFailXhr opts0 "http://x/y" none Content.empty []
      [Stim.rescheduled, Stim.note 4 500] initState).count Ev.error ≤ 1 ∧
    (∀ t : St, t.errorDispatched_ = true → dispatchErrors_ t = (t, [])) :=
  claim2_error_dispatched_once env0 ieDoubleFailXhr
    opts0 "http://x/y" none Content.empty [] [Stim.rescheduled, Stim.note 4 500]
    initState rfl rfl

/-- Claim C4: `dispose` while a request is active aborts the transport
handle (one more `xhr_.abort()` call), releases it, marks the controller
disposed — and dispatches no events at all. -/
theorem claim4_dispose_active_silent (env : Env) (s : St)
    (hx : s.xhr_.isSome = true) (ha : s.active_ = true)
    (hd : s.disposed = false) :
    (step env Stim.disposeCall s).2 = [] ∧
    (step env Stim.disposeCall s).1.xhr_ = none ∧
    (step env Stim.disposeCall s).1.active_ = false ∧
    (step env Stim.disposeCall s).1.disposed = true ∧
    (step env Stim.disposeCall s).1.abortCalls = s.abortCalls + 1 := by
  dsimp [step]
  unfold dispose
  rw [if_neg (by simp [hd])]
  exact disposeInternal_spec env s hx ha

/-- Claim C4 witness: disposing a concrete active controller whose handle
even fires its own notification from inside `abort()` emits nothing. -/
theorem claim4_witness :
    (step env0 Stim.disposeCall activeSt).2 = [] ∧
    (step env0 Stim.disposeCall activeSt).1.xhr_ = none ∧
    (step env0 Stim.disposeCall activeSt).1.active_ = false ∧
    (step env0 Stim.disposeCall activeSt).1.disposed = true ∧
    (step env0 Stim.disposeCall activeSt).1.abortCalls = activeSt.abortCalls + 1 :=
  claim4_dispose_active_silent env0 activeSt rfl rfl rfl

/-- The timeout mechanisms armed by a successful `send`, and the headers
the transport received: the fallback timer is armed exactly when a positive
timeout interval is set and the capability probe rejects the native
mechanism; the native mechanism is armed exactly when a positive interval
is set and the probe accepts; and the handle carries exactly the built
headers. -/
theorem sendM_armed (env : Env) (x0 : Xhr) (opts : XhrOptions) (url : String)
    (optM : Option String) (c : Content) (hs : List (String × String)) (s0 : St)
    (h0 : s0.xhr_ = none) (hd : s0.disposed = false)
    (hopen : x0.openThrows = none) (hsend : x0.sendThrows = none)
    (hfresh : x0.ontimeoutSet = false) :
    fallbackArmed (sendM env x0 opts url optM c hs s0).1.1 =
      (decide (0 < s0.timeoutInterval_) && !shouldUseXhr2Timeout_ env x0) ∧
    nativeArmed (sendM env x0 opts url optM c hs s0).1.1 =
      (decide (0 < s0.timeoutInterval_) && shouldUseXhr2Timeout_ env x0) ∧
    ((sendM env x0 opts url optM c hs s0).1.1.xhr_.map fun y => y.requestHeaders) =
      some (buildHeaders s0.headers hs (methodName optM) (isFormData c)) := by
  unfold sendM
  split
  · rename_i hcond
    rw [h0] at hcond
    simp at hcond
  · rw [hopen]
    dsimp only
    rcases xhrOpenNotify_spec env { s0 with
        active_ := true, xhr_ := some x0, xhrOptions_ := some opts,
        lastUri_ := url, lastMethod_ := methodName optM,
        lastErrorCode_ := ErrorCode.NO_ERROR, lastError_ := "",
        errorDispatched_ := false, inOpen_ := true } x0 rfl rfl hd
      with ho | ho
    all_goals rw [hsend]
    all_goals rw [ho]
    all_goals try dsimp only
    · set L : St := { s0 with
        active_ := true, xhr_ := some x0, xhrOptions_ := some opts,
        lastUri_ := url, lastMethod_ := methodName optM,
        lastErrorCode_ := ErrorCode.NO_ERROR, lastError_ := "",
        errorDispatched_ := false, inOpen_ := false } with hL
      set C : St := sendApplyConfig env x0
        (buildHeaders s0.headers hs (methodName optM) (isFormData c)) L with hC
      set T : St := { C with inSend_ := true } with hT
      obtain ⟨hca, hcs, hco, hcd, hce, hch, hcu, hcx, hcti, hcreq, hcsome,
        hcfb, hcna⟩ := sendApplyConfig_spec env x0
        (buildHeaders s0.headers hs (methodName optM) (isFormData c)) L x0 rfl
      obtain ⟨hq, hrsc⟩ := runSyncNotes_spec env x0.syncSendNotes T
        (hca.trans rfl) rfl
      have e1 : (runSyncNotes env x0.syncSendNotes T).1.timeoutId_ = C.timeoutId_ :=
        hq.timeoutId
      refine ⟨?_, ?_, ?_⟩
      · exact (congrArg Option.isSome e1).trans hcfb
      · exact (sendQuiet_nativeArmed T (runSyncNotes env x0.syncSendNotes T).1 hq).trans
          (hcna.trans (by simp [hfresh]))
      · exact (sendQuiet_reqHeaders T (runSyncNotes env x0.syncSendNotes T).1 hq).trans hcreq
    · set L : St := { s0 with
        active_ := true, xhr_ := some { x0 with readyState := 1 },
        xhrOptions_ := some opts,
        lastUri_ := url, lastMethod_ := methodName optM,
        lastErrorCode_ := ErrorCode.NO_ERROR, lastError_ := "",
        errorDispatched_ := false, inOpen_ := false } with hL
      set C : St := sendApplyConfig env x0
        (buildHeaders s0.headers hs (methodName optM) (isFormData c)) L with hC
      set T : St := { C with inSend_ := true } with hT
      obtain ⟨hca, hcs, hco, hcd, hce, hch, hcu, hcx, hcti, hcreq, hcsome,
        hcfb, hcna⟩ := sendApplyConfig_spec env x0
        (buildHeaders s0.headers hs (methodName optM) (isFormData c)) L
        { x0 with readyState := 1 } rfl
      obtain ⟨hq, hrsc⟩ := runSyncNotes_spec env x0.syncSendNotes T
        (hca.trans rfl) rfl
      have e1 : (runSyncNotes env x0.syncSendNotes T).1.timeoutId_ = C.timeoutId_ :=
        hq.timeoutId
      refine ⟨?_, ?_, ?_⟩
      · exact (congrArg Option.isSome e1).trans hcfb
      · exact (sendQuiet_nativeArmed T (runSyncNotes env x0.syncSendNotes T).1 hq).trans
          (hcna.trans (by simp [hfresh]))
      · exact (sendQuiet_reqHeaders T (runSyncNotes env x0.syncSendNotes T).1 hq).trans hcreq

/-- Finding the replaced entry after an in-place `mapSet` update. -/
theorem find_in_replaced (m : List (String × String)) (k v : String) :
    m.any (fun p => p.1 == k) = true →
    ((m.map fun p => if p.1 == k then (k, v) else p).find? fun p => p.1 == k) =
      some (k, v) := by
  induction m with
  | nil =>
    intro h
    simp at h
  | cons p rest ih =>
    intro h
    by_cases hp : (p.1 == k) = true
    · simp [List.find?, hp]
    · have hp2 : (p.1 == k) = false := by
        cases hpk : (p.1 == k) <;> simp [hpk] at hp ⊢
      rw [List.any_cons, hp2] at h
      simp only [Bool.false_or] at h
      rw [List.map_cons, if_neg hp, List.find?_cons_of_neg _ (by simp [hp2])]
      exact ih h

/-- Finding the appended entry after a fresh `mapSet` insertion. -/
theorem find_in_appended (m : List (String × String)) (k v : String) :
    m.any (fun p => p.1 == k) = false →
    ((m ++ [(k, v)]).find? fun p => p.1 == k) = some (k, v) := by
  induction m with
  | nil =>
    intro h
    simp [List.find?]
  | cons p rest ih =>
    intro h
    rw [List.any_cons] at h
    have hp : (p.1 == k) = false := by
      cases hpk : (p.1 == k) <;> simp [hpk] at h ⊢
    have h2 : rest.any (fun p => p.1 == k) = false := by
      rw [hp] at h
      simpa using h
    simp [List.find?, hp, ih h2]

/-- `set` then `get` on the header map returns the set value. -/
theorem mapGet_mapSet (m : List (String × String)) (k v : String) :
    mapGet (mapSet m k v) k = some v := by
  unfold mapGet mapSet
  by_cases h : m.any (fun p => p.1 == k) = true
  · rw [if_pos h, find_in_replaced m k v h]
    rfl
  · rw [if_neg h, find_in_appended m k v (by
      cases hh : m.any (fun p => p.1 == k) with
      | false => rfl
      | true => exact absurd hh h)]
    rfl

/-- Claim C5: `isSuccess` returns true exactly when the reported status is
an HTTP success code (200 or 304 per the modelled status-success rules), or
the status is 0 and the effective scheme of the last requested URI is not
http/https; any other status at terminal readiness is a failure. -/
theorem claim5_isSuccess_classification (env : Env) (s : St) (x : Xhr)
    (hx : s.xhr_ = some x) (hrs : x.readyState = 4)
    (ht : x.throwsOnAccess = false) :
    isSuccess env s = true ↔
      (x.status = 200 ∨ x.status = 304 ∨
        (x.status = 0 ∧ httpSchemePatternTest (env.effScheme s.lastUri_) = false)) := by
  unfold isSuccess httpStatusIsSuccess getStatus getReadyState
    isLastUriEffectiveSchemeHttp_
  rw [hx]
  simp [hrs, ht, ReadyStateLOADED]
  tauto

/-- Claim C5 witness: a status-200 response at terminal readiness is
classified a success. -/
theorem claim5_witness :
    isSuccess env0 okSt200 = true ↔
      (({ freshXhr with readyState := 4, status := 200 } : Xhr).status = 200 ∨
        ({ freshXhr with readyState := 4, status := 200 } : Xhr).status = 304 ∨
        (({ freshXhr with readyState := 4, status := 200 } : Xhr).status = 0 ∧
          httpSchemePatternTest (env0.effScheme okSt200.lastUri_) = false)) :=
  claim5_isSuccess_classification env0 okSt200
    { freshXhr with readyState := 4, status := 200 } rfl rfl rfl

/-- Claim C6: calling `send` while a handle is owned throws the
active-request `Error` to the caller and leaves the whole controller state
unchanged. -/
theorem claim6_send_while_active_throws (env : Env) (x0 : Xhr)
    (opts : XhrOptions) (url : String) (optM : Option String) (c : Content)
    (hs : List (String × String)) (s : St) (hx : s.xhr_.isSome = true) :
    sendM env x0 opts url optM c hs s =
      ((s, []), some ("[goog.net.XhrIo] Object is active with another request=" ++
        s.lastUri_ ++ "; newUri=" ++ url)) := by
  unfold sendM
  rw [if_pos hx]

/-- Claim C6 witness: a second `send` on a concrete active controller
rejects with the precondition message and returns the state unmutated. -/
theorem claim6_witness :
    sendM env0 freshXhr opts0 "http://new/uri" none Content.empty [] activeSt =
      ((activeSt, []),
        some ("[goog.net.XhrIo] Object is active with another request=" ++
          activeSt.lastUri_ ++ "; newUri=" ++ "http://new/uri")) :=
  claim6_send_while_active_throws env0 freshXhr opts0 "http://new/uri" none
    Content.empty [] activeSt rfl

/-- Claim C7, counterexample: on a non-IE platform the handle can expose the
XHR2 timeout and ontimeout properties with the correct types and yet the
capability probe rejects the native mechanism — a send with a positive
timeout interval arms the fallback timer, not the native timeout. -/
theorem claim7_counterexample :
    xhr2CapableXhr.timeoutIsNumber = true ∧ xhr2CapableXhr.ontimeoutDef = true ∧
    shouldUseXhr2Timeout_ env0 xhr2CapableXhr = false ∧
    nativeArmed (sendM env0 xhr2CapableXhr opts0 "http://x/y" none Content.empty []
      (setTimeoutInterval 30 initState)).1.1 = false ∧
    fallbackArmed (sendM env0 xhr2CapableXhr opts0 "http://x/y" none Content.empty []
      (setTimeoutInterval 30 initState)).1.1 = true := by
  refine ⟨rfl, rfl, rfl, ?_, ?_⟩ <;> rfl

/-- Claim C7 (amended): for every `send` with a positive timeout interval,
exactly one timeout mechanism is armed — the native XHR2 pair exactly when
the capability probe `shouldUseXhr2Timeout_` accepts (the user agent is IE
of version at least 9 and the handle exposes timeout/ontimeout with the
correct types), the `goog.Timer` fallback otherwise, never both. -/
theorem claim7_one_timeout_mechanism (env : Env) (x0 : Xhr) (opts : XhrOptions)
    (url : String) (optM : Option String) (c : Content)
    (hs : List (String × String)) (s0 : St)
    (h0 : s0.xhr_ = none) (hd : s0.disposed = false)
    (hopen : x0.openThrows = none) (hsend : x0.sendThrows = none)
    (hfresh : x0.ontimeoutSet = false) (hT : 0 < s0.timeoutInterval_) :
    nativeArmed (sendM env x0 opts url optM c hs s0).1.1 =
      shouldUseXhr2Timeout_ env x0 ∧
    fallbackArmed (sendM env x0 opts url optM c hs s0).1.1 =
      !shouldUseXhr2Timeout_ env x0 ∧
    nativeArmed (sendM env x0 opts url optM c hs s0).1.1 ≠
      fallbackArmed (sendM env x0 opts url optM c hs s0).1.1 ∧
    shouldUseXhr2Timeout_ env x0 =
      (env.isIE && env.ieVersion9 && x0.timeoutIsNumber && x0.ontimeoutDef) := by
  obtain ⟨hfb, hna, _⟩ :=
    sendM_armed env x0 opts url optM c hs s0 h0 hd hopen hsend hfresh
  have hdec : decide (0 < s0.timeoutInterval_) = true := by simpa using hT
  rw [hdec] at hfb hna
  simp only [Bool.true_and] at hfb hna
  refine ⟨hna, hfb, ?_, rfl⟩
  rw [hna, hfb]
  cases shouldUseXhr2Timeout_ env x0 <;> simp

/-- Claim C7 witness: on an IE-9 platform with an XHR2-capable handle and a
30 ms interval, the native mechanism and only it is armed. -/
theorem claim7_witness :
    nativeArmed (sendM envIE9 xhr2CapableXhr opts0 "http://x/y" none
      Content.empty [] (setTimeoutInterval 30 initState)).1.1 =
      shouldUseXhr2Timeout_ envIE9 xhr2CapableXhr ∧
    fallbackArmed (sendM envIE9 xhr2CapableXhr opts0 "http://x/y" none
      Content.empty [] (setTimeoutInterval 30 initState)).1.1 =
      !shouldUseXhr2Timeout_ envIE9 xhr2CapableXhr ∧
    nativeArmed (sendM envIE9 xhr2CapableXhr opts0 "http://x/y" none
      Content.empty [] (setTimeoutInterval 30 initState)).1.1 ≠
      fallbackArmed (sendM envIE9 xhr2CapableXhr opts0 "http://x/y" none
      Content.empty [] (setTimeoutInterval 30 initState)).1.1 ∧
    shouldUseXhr2Timeout_ envIE9 xhr2CapableXhr =
      (envIE9.isIE && envIE9.ieVersion9 && xhr2CapableXhr.timeoutIsNumber &&
        xhr2CapableXhr.ontimeoutDef) :=
  claim7_one_timeout_mechanism envIE9 xhr2CapableXhr opts0 "http://x/y" none
    Content.empty [] (setTimeoutInterval 30 initState) rfl rfl rfl rfl rfl
    (by decide)

/-- Claim C8: the urlencoded form content type is injected exactly when the
(uppercased) method is form-bearing (POST/PUT), no caller-supplied header
matches Content-Type case-insensitively, and the body is not a FormData
payload; otherwise the merged headers pass through untouched — and a
successful `send` hands the transport exactly the built headers. -/
theorem claim8_form_content_type :
    (∀ (base ovr : List (String × String)) (method : String) (cifd : Bool),
      (METHODS_WITH_FORM_DATA.contains method &&
        (((mergeHeaders base ovr).map fun p => p.1).find? isContentTypeHeader_).isNone &&
        !cifd) = true →
      mapGet (buildHeaders base ovr method cifd) CONTENT_TYPE_HEADER =
        some FORM_CONTENT_TYPE) ∧
    (∀ (base ovr : List (String × String)) (method : String) (cifd : Bool),
      (METHODS_WITH_FORM_DATA.contains method &&
        (((mergeHeaders base ovr).map fun p => p.1).find? isContentTypeHeader_).isNone &&
        !cifd) = false →
      buildHeaders base ovr method cifd = mergeHeaders base ovr) ∧
    (∀ (env : Env) (x0 : Xhr) (opts : XhrOptions) (url : String)
      (optM : Option String) (c : Content) (hs : List (String × String))
      (s0 : St), s0.xhr_ = none → s0.disposed = false →
      x0.openThrows = none → x0.sendThrows = none → x0.ontimeoutSet = false →
      ((sendM env x0 opts url optM c hs s0).1.1.xhr_.map fun y => y.requestHeaders) =
        some (buildHeaders s0.headers hs (methodName optM) (isFormData c))) := by
  refine ⟨?_, ?_, ?_⟩
  · intro base ovr method cifd h
    unfold buildHeaders
    rw [if_pos h]
    exact mapGet_mapSet _ _ _
  · intro base ovr method cifd h
    unfold buildHeaders
    rw [if_neg (by rw [h]; simp)]
  · intro env x0 opts url optM c hs s0 h0 hd hopen hsend hfresh
    exact (sendM_armed env x0 opts url optM c hs s0 h0 hd hopen hsend hfresh).2.2

/-- Claim C8 witness: a POST with body `a=1` and no content-type header gets
the urlencoded default; a caller-supplied `content-type` (any case)
suppresses it. -/
theorem claim8_witness :
    mapGet (buildHeaders [] [] "POST" false) CONTENT_TYPE_HEADER =
      some FORM_CONTENT_TYPE ∧
    buildHeaders [] [("content-type", "text/plain")] "POST" false =
      mergeHeaders [] [("content-type", "text/plain")] :=
  ⟨claim8_form_content_type.1 [] [] "POST" false (by decide),
    claim8_form_content_type.2.1 [] [("content-type", "text/plain")] "POST" false
      (by decide)⟩

/-- Claim C10: `setTimeoutInterval` stores `max 0 ms`, so the getter never
returns a negative value and a non-positive setting arms no timeout
mechanism on the following `send`. -/
theorem claim10_timeout_clamp (ms : Int) (s : St) (env : Env) (x0 : Xhr)
    (opts : XhrOptions) (url : String) (optM : Option String) (c : Content)
    (hs : List (String × String))
    (h0 : s.xhr_ = none) (hd : s.disposed = false)
    (hopen : x0.openThrows = none) (hsend : x0.sendThrows = none)
    (hfresh : x0.ontimeoutSet = false) :
    (setTimeoutInterval ms s).timeoutInterval_ = max 0 ms ∧
    0 ≤ getTimeoutInterval (setTimeoutInterval ms s) ∧
    (ms ≤ 0 →
      fallbackArmed (sendM env x0 opts url optM c hs (setTimeoutInterval ms s)).1.1 = false ∧
      nativeArmed (sendM env x0 opts url optM c hs (setTimeoutInterval ms s)).1.1 = false) := by
  refine ⟨rfl, ?_, ?_⟩
  · unfold getTimeoutInterval setTimeoutInterval
    simp
  · intro hms
    obtain ⟨hfb, hna, _⟩ := sendM_armed env x0 opts url optM c hs
      (setTimeoutInterval ms s) h0 hd hopen hsend hfresh
    have hdec : decide (0 < (setTimeoutInterval ms s).timeoutInterval_) = false := by
      unfold setTimeoutInterval
      simp
      omega
    rw [hdec] at hfb hna
    simp only [Bool.false_and] at hfb hna
    exact ⟨hfb, hna⟩

/-- Claim C10 witness: setting a -5 ms timeout stores 0 and the next send
arms nothing. -/
theorem claim10_witness :
    (setTimeoutInterval (-5) initState).timeoutInterval_ = max 0 (-5) ∧
    0 ≤ getTimeoutInterval (setTimeoutInterval (-5) initState) ∧
    ((-5 : Int) ≤ 0 →
      fallbackArmed (sendM env0 freshXhr opts0 "http://x/y" none Content.empty []
        (setTimeoutInterval (-5) initState)).1.1 = false ∧
      nativeArmed (sendM env0 freshXhr opts0 "http://x/y" none Content.empty []
        (setTimeoutInterval (-5) initState)).1.1 = false) :=
  claim10_timeout_clamp (-5) initState env0 freshXhr opts0 "http://x/y" none
    Content.empty [] rfl rfl rfl rfl rfl

/-- Claim C9, counterexample: `getResponseJson` is not defensive — with a
handle whose property reads throw, `getResponseText` and `getStatus` return
their neutral defaults but `getResponseJson` propagates the exception to the
caller instead of returning a default. -/
theorem claim9_counterexample :
    getResponseText sThrow = "" ∧ getStatus sThrow = -1 ∧
    getResponseJson String Except.ok none sThrow =
      Except.error "responseText access threw" :=
  ⟨rfl, rfl, rfl⟩

/-- Claim C9 (amended): the response accessors for raw text, typed payload,
XML payload, status and status text catch a throwing handle and return their
neutral defaults (empty string, -1, null); the header accessors never invoke
the handle when queried too early (readiness not terminal) or after teardown
(no handle), returning undefined, the empty string and the empty object;
`getResponseJson`, however, reads `responseText` with no try/catch, so with
a handle present the exception propagates to the caller — only when no
handle is present does it return undefined. -/
theorem claim9_accessor_defaults (s : St) (x : Xhr)
    (hx : s.xhr_ = some x) (ht : x.throwsOnAccess = true) :
    getResponseText s = "" ∧ getStatus s = -1 ∧ getStatusText s = "" ∧
    getResponseXml s = none ∧ getResponse s = none ∧
    (∀ (A : Type) (parse : String → Except String A) (optXssi : Option String),
      getResponseJson A parse optXssi s = Except.error "responseText access threw") ∧
    (∀ (t : St), t.xhr_ = none →
      ∀ (A : Type) (parse : String → Except String A) (optXssi : Option String),
        getResponseJson A parse optXssi t = Except.ok none) ∧
    (∀ (t : St), t.xhr_ = none ∨ isComplete t = false →
      (∀ key, getResponseHeader key t = none) ∧
      getAllResponseHeaders t = "" ∧ getResponseHeaders t = []) := by
  refine ⟨?_, ?_, ?_, ?_, ?_, ?_, ?_, ?_⟩
  · unfold getResponseText
    rw [hx]
    simp [ht]
  · unfold getStatus getReadyState
    rw [hx]
    simp [ht]
  · unfold getStatusText getReadyState
    rw [hx]
    simp [ht]
  · unfold getResponseXml
    rw [hx]
    simp [ht]
  · unfold getResponse
    rw [hx]
    simp [ht]
  · intro A parse optXssi
    unfold getResponseJson
    rw [hx]
    simp [ht]
  · intro t ht0 A parse optXssi
    unfold getResponseJson
    rw [ht0]
  · intro t h
    have hall : getAllResponseHeaders t = "" := by
      rcases hxt : t.xhr_ with _ | y
      · unfold getAllResponseHeaders
        rw [hxt]
      · rcases h with h | h
        · rw [hxt] at h
          exact Option.noConfusion h
        · unfold getAllResponseHeaders
          rw [hxt]
          simp [h]
    refine ⟨?_, hall, ?_⟩
    · intro key
      rcases hxt : t.xhr_ with _ | y
      · unfold getResponseHeader
        rw [hxt]
      · rcases h with h | h
        · rw [hxt] at h
          exact Option.noConfusion h
        · unfold getResponseHeader
          rw [hxt]
          simp [h]
    · unfold getResponseHeaders
      rw [hall]
      rfl

/-- Claim C9 witness: the defaults, the guarded header accessors and the
propagated exception observed on a concrete controller holding a throwing
handle. -/
theorem claim9_witness :
    getResponseText sThrow = "" ∧ getStatus sThrow = -1 ∧
    getStatusText sThrow = "" ∧ getResponseXml sThrow = none ∧
    getResponse sThrow = none ∧
    (∀ (A : Type) (parse : String → Except String A) (optXssi : Option String),
      getResponseJson A parse optXssi sThrow =
        Except.error "responseText access threw") ∧
    (∀ (t : St), t.xhr_ = none →
      ∀ (A : Type) (parse : String → Except String A) (optXssi : Option String),
        getResponseJson A parse optXssi t = Except.ok none) ∧
    (∀ (t : St), t.xhr_ = none ∨ isComplete t = false →
      (∀ key, getResponseHeader key t = none) ∧
      getAllResponseHeaders t = "" ∧ getResponseHeaders t = []) :=
  claim9_accessor_defaults sThrow throwingXhr rfl rfl

/-- Claim C3: a synchronous completion notification fired from inside the
controller's own `send` call (cached response, readiness already terminal)
is not processed inline: `send` dispatches no events and returns with the
notification rescheduled (`pendingRsc`), and only when the zero-delay timer
fires afterwards is the READY_STATE_CHANGE → COMPLETE → outcome → READY
sequence observed. -/
theorem claim3_sync_completion_deferred (env : Env) (opts : XhrOptions)
    (status : Int) (url : String) (hl : opts.localRequestError = false) :
    (sendM env (cachedXhr status) opts url none Content.empty [] initState).2 =
      none ∧
    (sendM env (cachedXhr status) opts url none Content.empty [] initState).1.2 =
      [] ∧
    (sendM env (cachedXhr status) opts url none Content.empty []
      initState).1.1.pendingRsc = true ∧
    ∃ x, (x = Ev.success ∨ x = Ev.error) ∧
      (step env Stim.rescheduled
        (sendM env (cachedXhr status) opts url none Content.empty []
          initState).1.1).2 =
        [Ev.readyStateChange, Ev.complete, x, Ev.ready] := by
  refine ⟨?_, ?_, ?_, ?_⟩
  · simp [sendM, cachedXhr, freshXhr, initState, methodName, xhrOpenNotify,
      runSyncNotes, onReadyStateChange_, onReadyStateChangeEntryPoint_,
      onReadyStateChangeHelper_, sendApplyConfig, cleanUpTimeoutTimer_,
      withXhr, getReadyState, getStatus, isComplete, buildHeaders,
      mergeHeaders, mapSet, isFormData, hl, ReadyStateCOMPLETE,
      ReadyStateLOADED]
  · simp [sendM, cachedXhr, freshXhr, initState, methodName, xhrOpenNotify,
      runSyncNotes, onReadyStateChange_, onReadyStateChangeEntryPoint_,
      onReadyStateChangeHelper_, sendApplyConfig, cleanUpTimeoutTimer_,
      withXhr, getReadyState, getStatus, isComplete, buildHeaders,
      mergeHeaders, mapSet, isFormData, hl, ReadyStateCOMPLETE,
      ReadyStateLOADED]
  · simp [sendM, cachedXhr, freshXhr, initState, methodName, xhrOpenNotify,
      runSyncNotes, onReadyStateChange_, onReadyStateChangeEntryPoint_,
      onReadyStateChangeHelper_, sendApplyConfig, cleanUpTimeoutTimer_,
      withXhr, getReadyState, getStatus, isComplete, buildHeaders,
      mergeHeaders, mapSet, isFormData, hl, ReadyStateCOMPLETE,
      ReadyStateLOADED]
  · by_cases hb : (httpStatusIsSuccess status ||
        (status == 0 && !httpSchemePatternTest (env.effScheme url))) = true
    · refine ⟨Ev.success, Or.inl rfl, ?_⟩
      simp [sendM, cachedXhr, freshXhr, initState, methodName, xhrOpenNotify,
        runSyncNotes, onReadyStateChange_, onReadyStateChangeEntryPoint_,
        onReadyStateChangeHelper_, sendApplyConfig, cleanUpTimeoutTimer_,
        withXhr, getReadyState, getStatus, isComplete, buildHeaders,
        mergeHeaders, mapSet, isFormData, hl, ReadyStateCOMPLETE,
        ReadyStateLOADED, step, isSuccess, isLastUriEffectiveSchemeHttp_,
        cleanUpXhr_, dispatchErrors_, hb]
    · rw [Bool.not_eq_true] at hb
      refine ⟨Ev.error, Or.inr rfl, ?_⟩
      simp [sendM, cachedXhr, freshXhr, initState, methodName, xhrOpenNotify,
        runSyncNotes, onReadyStateChange_, onReadyStateChangeEntryPoint_,
        onReadyStateChangeHelper_, sendApplyConfig, cleanUpTimeoutTimer_,
        withXhr, getReadyState, getStatus, isComplete, buildHeaders,
        mergeHeaders, mapSet, isFormData, hl, ReadyStateCOMPLETE,
        ReadyStateLOADED, step, isSuccess, isLastUriEffectiveSchemeHttp_,
        cleanUpXhr_, dispatchErrors_, hb]

/-- Claim C3 witness: a cached status-200 response — `send` itself emits
nothing and marks the notification rescheduled, and the zero-delay timer
fire yields the full terminal sequence. -/
theorem claim3_witness :
    (sendM env0 (cachedXhr 200) opts0 "http://x/y" none Content.empty []
      initState).2 = none ∧
    (sendM env0 (cachedXhr 200) opts0 "http://x/y" none Content.empty []
      initState).1.2 = [] ∧
    (sendM env0 (cachedXhr 200) opts0 "http://x/y" none Content.empty []
      initState).1.1.pendingRsc = true ∧
    ∃ x, (x = Ev.success ∨ x = Ev.error) ∧
      (step env0 Stim.rescheduled
        (sendM env0 (cachedXhr 200) opts0 "http://x/y" none Content.empty []
          initState).1.1).2 =
        [Ev.readyStateChange, Ev.complete, x, Ev.ready] :=
  claim3_sync_completion_deferred env0 opts0 200 "http://x/y" rfl

end GoogNet
